import Mathlib

/-!
Verification of the deadline-compliance rule engine of the Scheduler repository:
a shallow embedding of the stage classifier, the check evaluators, the status
combiner, the document-turnaround analyzer and the task synthesizer, together
with theorems about their behaviour.

Dates are modelled as integers (a day count); a pandas cell is either a missing
value (NaN / absent column / empty string, which `safe_get_column` collapses to
its `"no_data"` default), a well-formed date, or a malformed text value on which
`pd.to_datetime` raises.  Python exceptions are modelled with `Except`: each
evaluator body is an `Except`-valued function whose error constructor marks the
places where the Python code can raise, and the published evaluator wraps the
body in the `try/except` handler of the source.
-/

/-- A pandas cell: missing (NaN), a parsed date (day number), or a text value
that `pd.to_datetime` cannot parse. -/
inductive Cell where
  | missing
  | dateVal (d : Int)
  | textVal (s : String)
  deriving DecidableEq

instance : Inhabited Cell := ⟨Cell.missing⟩

/-- `pd.notna` on a cell. -/
def Cell.notna : Cell → Bool
  | .missing => false
  | _ => true

/-- `pd.to_datetime(value).date()`: succeeds on a date cell, raises otherwise. -/
def to_datetime : Cell → Except Unit Int
  | .dateVal d => .ok d
  | _ => .error ()

/-- `str(value)` on a cell. -/
def cellStr : Cell → String
  | .missing => "nan"
  | .dateVal d => toString d
  | .textVal s => s

/-- The external working-day calendar service (`RussianCalendar`):
`add_working_days` and `get_working_days_between`. -/
structure Calendar where
  add_working_days : Int → Int → Int
  get_working_days_between : Int → Int → Int

/-- A calendar in which every day is a working day; used to instantiate
theorems at concrete inputs. -/
def allDaysCalendar : Calendar :=
  { add_working_days := fun d n => d + n
    get_working_days_between := fun a b => b - a }

/-- Modelled from the spec: the repository's `column_names.py` (the `VALUES`
dictionary of case-status string constants) is not under `src/`; the engine
only compares these constants for equality, so they are modelled as distinct
placeholder strings named after their logical keys (Reopened, ComplaintFiled,
Closed, UnderConsideration, …). -/
def VALUES_REOPENED : String := "REOPENED"

def VALUES_COMPLAINT_FILED : String := "COMPLAINT_FILED"

def VALUES_ERROR_DUBLICATE : String := "ERROR_DUBLICATE"

def VALUES_WITHDRAWN_BY_THE_INITIATOR : String := "WITHDRAWN_BY_THE_INITIATOR"

def VALUES_CONDITIONALLY_CLOSED : String := "CONDITIONALLY_CLOSED"

def VALUES_CLOSED : String := "CLOSED"

def VALUES_COURT_ACT_IN_FORCE : String := "COURT_ACT_IN_FORCE"

def VALUES_DECISION_MADE : String := "DECISION_MADE"

def VALUES_UNDER_CONSIDERATION : String := "UNDER_CONSIDERATION"

def VALUES_AWAITING_COURT_RESPONSE : String := "AWAITING_COURT_RESPONSE"

def VALUES_PREPARATION_OF_DOCUMENTS : String := "PREPARATION_OF_DOCUMENTS"

def VALUES_CLAIM_FROM_BANK : String := "CLAIM_FROM_BANK"

def VALUES_CLAIM_PROCEEDINGS : String := "CLAIM_PROCEEDINGS"

def VALUES_ORDER_PRODUCTION : String := "ORDER_PRODUCTION"

def VALUES_COURT_ORDER : String := "COURT_ORDER"

/-- One case row (`pd.Series`); each field is the cell of the correspondingly
named column of `column_names.py` (`CASE_STATUS`, `CASE_CLOSING_DATE`,
`FIRST_LAWSUIT_FILING_DATE`, …). -/
structure CaseRow where
  caseStatus : Cell := .missing
  caseClosingDate : Cell := .missing
  firstFilingDate : Cell := .missing
  filingDate : Cell := .missing
  lastRequestDate : Cell := .missing
  decisionCourtDate : Cell := .missing
  courtDecisionDate : Cell := .missing
  decisionReceiptDate : Cell := .missing
  actualTransferDate : Cell := .missing
  actualReceiptDate : Cell := .missing
  determinationDate : Cell := .missing
  nextHearingDate : Cell := .missing
  previousHearingDate : Cell := .missing
  characteristicsFinalCourtAct : Cell := .missing
  courtDetermination : Cell := .missing
  caseCode : Cell := .missing
  category : Cell := .missing
  methodOfProtection : Cell := .missing
  deriving DecidableEq

instance : Inhabited CaseRow := ⟨{}⟩

/-- `utils.get_filing_date`: first of `FIRST_LAWSUIT_FILING_DATE`,
`LAWSUIT_FILING_DATE`, `LAST_REQUEST_DATE_IN_UP` that is not NaN, converted by
`pd.to_datetime` inside a `try/except` that returns `None` on failure. -/
def get_filing_date (row : CaseRow) : Option Int :=
  match row.firstFilingDate with
  | .dateVal d => some d
  | .textVal _ => none
  | .missing =>
    match row.filingDate with
    | .dateVal d => some d
    | .textVal _ => none
    | .missing =>
      match row.lastRequestDate with
      | .dateVal d => some d
      | .textVal _ => none
      | .missing => none

/-- The `except Exception: return "no_data", False` handler wrapped around each
row evaluator body. -/
def catch_no_data (r : Except Unit (String × Bool)) : String × Bool :=
  match r with
  | .ok v => v
  | .error _ => ("no_data", false)

/-- Body of `evaluate_closed_row` (lawsuit closing: 125 calendar days from the
filing date, completion date `CASE_CLOSING_DATE`). -/
def evaluate_closed_row_body (row : CaseRow) (today : Int) : Except Unit (String × Bool) :=
  match get_filing_date row with
  | none => .ok ("no_data", false)
  | some filing_date =>
    let deadline_date := filing_date + 125
    match row.caseClosingDate with
    | .missing =>
      if today > deadline_date then .ok ("overdue", false) else .ok ("timely", false)
    | closing_date_value =>
      match to_datetime closing_date_value with
      | .error e => .error e
      | .ok closing_date =>
        if closing_date ≤ deadline_date then .ok ("timely", true) else .ok ("overdue", true)

/-- `lawsuit_row_analyzer_v2.evaluate_closed_row`. -/
def evaluate_closed_row (row : CaseRow) (today : Int) : String × Bool :=
  catch_no_data (evaluate_closed_row_body row today)

/-- A row of the processed documents table (`documents_processed`), as consulted
by the execution-document join: `caseCode`, `department`, `document`,
`monitoringStatus` and `responseEssence` (the latter defaulting to `""` when the
column is absent, as in `doc.get("responseEssence", "")`). -/
structure ProcDoc where
  caseCode : Cell := .missing
  department : String := ""
  document : String := ""
  monitoringStatus : String := ""
  responseEssence : String := ""
  deriving DecidableEq

/-- `evaluate_execution_document_received_row` (shared shape of the lawsuit and
order variants): looks up the processed documents table for the case's
execution writ (`department = "ПСИП"`, `document = "Исполнительный лист"`) and
republishes its `monitoringStatus`, with completion given by the transfer
confirmation sentinel.  The `data_manager` table is passed explicitly. -/
def evaluate_execution_document_received_row (row : CaseRow) (docs : List ProcDoc) :
    String × Bool :=
  catch_no_data
    (match row.caseCode with
     | .missing => .ok ("no_data", false)
     | case_code =>
       if docs.isEmpty then .ok ("no_data", false)
       else
         match docs.filter (fun d =>
             decide (d.caseCode = case_code) && decide (d.department = "ПСИП") &&
             decide (d.document = "Исполнительный лист")) with
         | [] => .ok ("no_data", false)
         | doc :: _ =>
           .ok (doc.monitoringStatus, doc.responseEssence = "Передача подтверждена"))

/-- Body of `evaluate_decision_date_row` (decision within 45 calendar days of
`DECISION_COURT_DATE`, completion date `COURT_DECISION_DATE`). -/
def evaluate_decision_date_row_body (row : CaseRow) (today : Int) :
    Except Unit (String × Bool) :=
  match row.decisionCourtDate with
  | .missing => .ok ("no_data", false)
  | decision_court_date_value =>
    match to_datetime decision_court_date_value with
    | .error e => .error e
    | .ok decision_court_date =>
      let deadline_date := decision_court_date + 45
      match row.courtDecisionDate with
      | .missing =>
        if today > deadline_date then .ok ("overdue", false) else .ok ("timely", false)
      | court_decision_date_value =>
        match to_datetime court_decision_date_value with
        | .error e => .error e
        | .ok court_decision_date =>
          if court_decision_date ≤ deadline_date then .ok ("timely", true)
          else .ok ("overdue", true)

/-- `lawsuit_row_analyzer_v2.evaluate_decision_date_row`. -/
def evaluate_decision_date_row (row : CaseRow) (today : Int) : String × Bool :=
  catch_no_data (evaluate_decision_date_row_body row today)

/-- Body of `evaluate_decision_receipt_row` (receipt within 3 calendar days of
`COURT_DECISION_DATE`, completion date `DECISION_RECEIPT_DATE`). -/
def evaluate_decision_receipt_row_body (row : CaseRow) (today : Int) :
    Except Unit (String × Bool) :=
  match row.courtDecisionDate with
  | .missing => .ok ("no_data", false)
  | court_decision_date_value =>
    match to_datetime court_decision_date_value with
    | .error e => .error e
    | .ok court_decision_date =>
      let deadline_date := court_decision_date + 3
      match row.decisionReceiptDate with
      | .missing =>
        if today > deadline_date then .ok ("overdue", false) else .ok ("timely", false)
      | decision_receipt_date_value =>
        match to_datetime decision_receipt_date_value with
        | .error e => .error e
        | .ok decision_receipt_date =>
          if decision_receipt_date ≤ deadline_date then .ok ("timely", true)
          else .ok ("overdue", true)

/-- `lawsuit_row_analyzer_v2.evaluate_decision_receipt_row`. -/
def evaluate_decision_receipt_row (row : CaseRow) (today : Int) : String × Bool :=
  catch_no_data (evaluate_decision_receipt_row_body row today)

/-- Body of `evaluate_decision_transfer_row` (transfer within 1 calendar day of
`COURT_DECISION_DATE`, completion date `ACTUAL_TRANSFER_DATE`). -/
def evaluate_decision_transfer_row_body (row : CaseRow) (today : Int) :
    Except Unit (String × Bool) :=
  match row.courtDecisionDate with
  | .missing => .ok ("no_data", false)
  | court_decision_date_value =>
    match to_datetime court_decision_date_value with
    | .error e => .error e
    | .ok court_decision_date =>
      let deadline_date := court_decision_date + 1
      match row.actualTransferDate with
      | .missing =>
        if today > deadline_date then .ok ("overdue", false) else .ok ("timely", false)
      | actual_transfer_date_value =>
        match to_datetime actual_transfer_date_value with
        | .error e => .error e
        | .ok actual_transfer_date =>
          if actual_transfer_date ≤ deadline_date then .ok ("timely", true)
          else .ok ("overdue", true)

/-- `lawsuit_row_analyzer_v2.evaluate_decision_transfer_row`. -/
def evaluate_decision_transfer_row (row : CaseRow) (today : Int) : String × Bool :=
  catch_no_data (evaluate_decision_transfer_row_body row today)

/-- Body of `evaluate_next_hearing_present_row` (next hearing within 3 working
days of `DETERMINATION_DATE`, completion date `NEXT_HEARING_DATE`). -/
def evaluate_next_hearing_present_row_body (row : CaseRow) (today : Int) (cal : Calendar) :
    Except Unit (String × Bool) :=
  match row.determinationDate with
  | .missing => .ok ("no_data", false)
  | determination_date_value =>
    match to_datetime determination_date_value with
    | .error e => .error e
    | .ok determination_date =>
      let deadline_date := cal.add_working_days determination_date 3
      match row.nextHearingDate with
      | .missing =>
        if today > deadline_date then .ok ("overdue", false) else .ok ("timely", false)
      | next_hearing_date_value =>
        match to_datetime next_hearing_date_value with
        | .error e => .error e
        | .ok next_hearing_date =>
          if next_hearing_date ≤ deadline_date then .ok ("timely", true)
          else .ok ("overdue", true)

/-- `lawsuit_row_analyzer_v2.evaluate_next_hearing_present_row`. -/
def evaluate_next_hearing_present_row (row : CaseRow) (today : Int) (cal : Calendar) :
    String × Bool :=
  catch_no_data (evaluate_next_hearing_present_row_body row today cal)

/-- Body of `evaluate_prev_to_next_hearing_row` (the hearing-interval check:
gap between `PREVIOUS_HEARING_DATE` and `NEXT_HEARING_DATE` of at most 2
working days; the source reads `date.today()` internally, passed here as
`today`). -/
def evaluate_prev_to_next_hearing_row_body (row : CaseRow) (cal : Calendar) (today : Int) :
    Except Unit (String × Bool) :=
  let prev_hearing_value := row.previousHearingDate
  let next_hearing_value := row.nextHearingDate
  let is_completed : Bool :=
    decide (prev_hearing_value ≠ .missing) && decide (next_hearing_value ≠ .missing)
  if prev_hearing_value = .missing ∧ next_hearing_value = .missing then
    .ok ("overdue", is_completed)
  else if prev_hearing_value = .missing ∧ next_hearing_value ≠ .missing then
    match to_datetime next_hearing_value with
    | .error e => .error e
    | .ok next_hearing_date =>
      let deadline_date := cal.add_working_days next_hearing_date 2
      .ok (if today > deadline_date then "overdue" else "timely", is_completed)
  else if prev_hearing_value ≠ .missing then
    match to_datetime prev_hearing_value with
    | .error e => .error e
    | .ok prev_hearing_date =>
      if next_hearing_value = .missing then
        let deadline_date := cal.add_working_days prev_hearing_date 2
        .ok (if today > deadline_date then "overdue" else "timely", is_completed)
      else
        match to_datetime next_hearing_value with
        | .error e => .error e
        | .ok next_hearing_date =>
          if next_hearing_date < prev_hearing_date then
            let deadline_date := cal.add_working_days prev_hearing_date 2
            .ok (if today > deadline_date then "overdue" else "timely", is_completed)
          else
            let working_days_between := cal.get_working_days_between prev_hearing_date next_hearing_date
            if working_days_between ≤ 2 then .ok ("timely", is_completed)
            else .ok ("overdue", is_completed)
  else
    .ok ("no_data", is_completed)

/-- `lawsuit_row_analyzer_v2.evaluate_prev_to_next_hearing_row`. -/
def evaluate_prev_to_next_hearing_row (row : CaseRow) (cal : Calendar) (today : Int) :
    String × Bool :=
  catch_no_data (evaluate_prev_to_next_hearing_row_body row cal today)

/-- Body of `evaluate_under_consideration_60days_row` (at most 60 calendar days
in review since the filing date; never completed at this stage). -/
def evaluate_under_consideration_60days_row_body (row : CaseRow) (today : Int) :
    Except Unit (String × Bool) :=
  match get_filing_date row with
  | none => .ok ("no_data", false)
  | some filing_date =>
    let deadline_date := filing_date + 60
    if today > deadline_date then .ok ("overdue", false) else .ok ("timely", false)

/-- `lawsuit_row_analyzer_v2.evaluate_under_consideration_60days_row`. -/
def evaluate_under_consideration_60days_row (row : CaseRow) (today : Int) : String × Bool :=
  catch_no_data (evaluate_under_consideration_60days_row_body row today)

/-- Body of `evaluate_court_reaction_row` (court determination expected within
7 working days of the filing date; a present `DETERMINATION_DATE` completes the
check immediately). -/
def evaluate_court_reaction_row_body (row : CaseRow) (today : Int) (cal : Calendar) :
    Except Unit (String × Bool) :=
  if row.determinationDate ≠ .missing then .ok ("timely", true)
  else
    match get_filing_date row with
    | none => .ok ("no_data", false)
    | some filing_date =>
      let deadline_date := cal.add_working_days filing_date 7
      if today > deadline_date then .ok ("overdue", false) else .ok ("timely", false)

/-- `lawsuit_row_analyzer_v2.evaluate_court_reaction_row`. -/
def evaluate_court_reaction_row (row : CaseRow) (today : Int) (cal : Calendar) : String × Bool :=
  catch_no_data (evaluate_court_reaction_row_body row today cal)

/-- Body of `evaluate_first_status_changed_row` (status change expected within
14 calendar days of the filing date; never completed at this stage). -/
def evaluate_first_status_changed_row_body (row : CaseRow) (today : Int) :
    Except Unit (String × Bool) :=
  match get_filing_date row with
  | none => .ok ("no_data", false)
  | some filing_date =>
    let deadline_date := filing_date + 14
    if today > deadline_date then .ok ("overdue", false) else .ok ("timely", false)

/-- `lawsuit_row_analyzer_v2.evaluate_first_status_changed_row`. -/
def evaluate_first_status_changed_row (row : CaseRow) (today : Int) : String × Bool :=
  catch_no_data (evaluate_first_status_changed_row_body row today)

/-- `utils.evaluate_exceptions_row`: maps the exceptional case statuses to their
string identifiers. -/
def evaluate_exceptions_row (row : CaseRow) : String :=
  if row.caseStatus = .textVal VALUES_REOPENED then "reopened"
  else if row.caseStatus = .textVal VALUES_COMPLAINT_FILED then "complaint_filed"
  else if row.caseStatus = .textVal VALUES_ERROR_DUBLICATE then "error_dublicate"
  else if row.caseStatus = .textVal VALUES_WITHDRAWN_BY_THE_INITIATOR then
    "withdraw_by_the_initiator"
  else "no_data"

/-- Body of `evaluate_order_closed_row` (order closing: 90 calendar days from
the filing date, completion date `CASE_CLOSING_DATE`). -/
def evaluate_order_closed_row_body (row : CaseRow) (today : Int) : Except Unit (String × Bool) :=
  match get_filing_date row with
  | none => .ok ("no_data", false)
  | some filing_date =>
    let deadline_date := filing_date + 90
    match row.caseClosingDate with
    | .missing =>
      if today > deadline_date then .ok ("overdue", false) else .ok ("timely", false)
    | closing_date_value =>
      match to_datetime closing_date_value with
      | .error e => .error e
      | .ok closing_date =>
        if closing_date ≤ deadline_date then .ok ("timely", true) else .ok ("overdue", true)

/-- `order_row_analyzer_v2.evaluate_order_closed_row`. -/
def evaluate_order_closed_row (row : CaseRow) (today : Int) : String × Bool :=
  catch_no_data (evaluate_order_closed_row_body row today)

/-- Body of `evaluate_order_court_reaction_row` (all of: court order issued,
receipt and transfer dates present, status conditionally closed, within 60
calendar days of the filing date; completion is the conjunction). -/
def evaluate_order_court_reaction_row_body (row : CaseRow) (today : Int) :
    Except Unit (String × Bool) :=
  match get_filing_date row with
  | none => .ok ("no_data", false)
  | some filing_date =>
    let deadline_date := filing_date + 60
    let has_court_order : Bool := decide (row.courtDetermination = .textVal VALUES_COURT_ORDER)
    let has_receipt_date : Bool := row.actualReceiptDate.notna
    let has_transfer_date : Bool := row.actualTransferDate.notna
    let has_correct_status : Bool :=
      decide (row.caseStatus = .textVal VALUES_CONDITIONALLY_CLOSED)
    let all_conditions_met :=
      has_court_order && has_receipt_date && has_transfer_date && has_correct_status
    let is_completed := all_conditions_met
    if today > deadline_date then
      .ok (if all_conditions_met then "timely" else "overdue", is_completed)
    else
      .ok ("timely", is_completed)

/-- `order_row_analyzer_v2.evaluate_order_court_reaction_row`. -/
def evaluate_order_court_reaction_row (row : CaseRow) (today : Int) : String × Bool :=
  catch_no_data (evaluate_order_court_reaction_row_body row today)

/-- Body of `evaluate_order_first_status_row` (status change expected within 14
calendar days of the filing date; never completed at this stage). -/
def evaluate_order_first_status_row_body (row : CaseRow) (today : Int) :
    Except Unit (String × Bool) :=
  match get_filing_date row with
  | none => .ok ("no_data", false)
  | some filing_date =>
    let deadline_date := filing_date + 14
    if row.caseStatus = .textVal VALUES_AWAITING_COURT_RESPONSE then .ok ("timely", false)
    else if today > deadline_date ∧ row.caseStatus = .textVal VALUES_PREPARATION_OF_DOCUMENTS then
      .ok ("overdue", false)
    else .ok ("timely", false)

/-- `order_row_analyzer_v2.evaluate_order_first_status_row`. -/
def evaluate_order_first_status_row (row : CaseRow) (today : Int) : String × Bool :=
  catch_no_data (evaluate_order_first_status_row_body row today)

/-- Python `s.lower()` on the underlying characters. -/
def lower_str (s : String) : String :=
  String.mk (s.data.map Char.toLower)

/-- Python `s.split(";")` on the underlying characters: splits at every
semicolon, never returns an empty list (`"".split(";") == [""]`). -/
def split_chars (sep : Char) : List Char → List (List Char)
  | [] => [[]]
  | c :: rest =>
    let r := split_chars sep rest
    if c = sep then [] :: r
    else
      match r with
      | [] => [[c]]
      | g :: gs => (c :: g) :: gs

/-- Python `s.split(";")`. -/
def split_on_semicolon (s : String) : List String :=
  (split_chars ';' s.data).map (fun cs => String.mk cs)

/-- Python `";".join(parts)`. -/
def join_with_semicolon : List String → String
  | [] => ""
  | [s] => s
  | s :: rest => s ++ ";" ++ join_with_semicolon rest

/-- `_combine_results`: semicolon-join of the per-check statuses (`"no_data"`
for an empty list). -/
def combine_results (results : List String) : String :=
  if results.isEmpty then "no_data" else join_with_semicolon results

/-- `_combine_completion_statuses`: semicolon-join of the lower-cased completion
flags (`"false"` for an empty list). -/
def combine_completion_statuses (completion_statuses : List Bool) : String :=
  if completion_statuses.isEmpty then "false"
  else join_with_semicolon
    (completion_statuses.map (fun status => if status then "true" else "false"))

/-- `lawsuit_stage_checks_v2.check_exceptions_stage`. -/
def check_lawsuit_exceptions_stage (row : CaseRow) (_today : Int) : String × String :=
  (combine_results [evaluate_exceptions_row row], combine_completion_statuses [true])

/-- `lawsuit_stage_checks_v2.check_closed_stage`. -/
def check_lawsuit_closed_stage (row : CaseRow) (today : Int) : String × String :=
  let r := evaluate_closed_row row today
  (combine_results [r.1], combine_completion_statuses [r.2])

/-- `lawsuit_stage_checks_v2.check_execution_document_received_stage` (the
processed documents table is threaded explicitly in place of `data_manager`). -/
def check_lawsuit_execution_document_received_stage (row : CaseRow) (docs : List ProcDoc) :
    String × String :=
  let r := evaluate_execution_document_received_row row docs
  (combine_results [r.1], combine_completion_statuses [r.2])

/-- `lawsuit_stage_checks_v2.check_decision_made_stage`: the three
decision-stage checks combined in order. -/
def check_lawsuit_decision_made_stage (row : CaseRow) (today : Int) : String × String :=
  let r1 := evaluate_decision_date_row row today
  let r2 := evaluate_decision_receipt_row row today
  let r3 := evaluate_decision_transfer_row row today
  (combine_results [r1.1, r2.1, r3.1], combine_completion_statuses [r1.2, r2.2, r3.2])

/-- `lawsuit_stage_checks_v2.check_under_consideration_stage`: the three
review-stage checks combined in order. -/
def check_lawsuit_under_consideration_stage (row : CaseRow) (today : Int) (cal : Calendar) :
    String × String :=
  let r1 := evaluate_next_hearing_present_row row today cal
  let r2 := evaluate_prev_to_next_hearing_row row cal today
  let r3 := evaluate_under_consideration_60days_row row today
  (combine_results [r1.1, r2.1, r3.1], combine_completion_statuses [r1.2, r2.2, r3.2])

/-- `lawsuit_stage_checks_v2.check_court_reaction_stage`. -/
def check_lawsuit_court_reaction_stage (row : CaseRow) (today : Int) (cal : Calendar) :
    String × String :=
  let r := evaluate_court_reaction_row row today cal
  (combine_results [r.1], combine_completion_statuses [r.2])

/-- `lawsuit_stage_checks_v2.check_first_status_changed_stage`. -/
def check_lawsuit_first_status_changed_stage (row : CaseRow) (today : Int) : String × String :=
  let r := evaluate_first_status_changed_row row today
  (combine_results [r.1], combine_completion_statuses [r.2])

/-- `order_stage_checks_v2.check_exceptions_stage`. -/
def check_order_exceptions_stage (row : CaseRow) (_today : Int) : String × String :=
  (combine_results [evaluate_exceptions_row row], combine_completion_statuses [true])

/-- `order_stage_checks_v2.check_closed_stage`. -/
def check_order_closed_stage (row : CaseRow) (today : Int) : String × String :=
  let r := evaluate_order_closed_row row today
  (combine_results [r.1], combine_completion_statuses [r.2])

/-- `order_stage_checks_v2.check_execution_document_received_stage`. -/
def check_order_execution_document_received_stage (row : CaseRow) (docs : List ProcDoc) :
    String × String :=
  let r := evaluate_execution_document_received_row row docs
  (combine_results [r.1], combine_completion_statuses [r.2])

/-- `order_stage_checks_v2.check_court_reaction_stage`. -/
def check_order_court_reaction_stage (row : CaseRow) (today : Int) : String × String :=
  let r := evaluate_order_court_reaction_row row today
  (combine_results [r.1], combine_completion_statuses [r.2])

/-- `order_stage_checks_v2.check_first_status_changed_stage`. -/
def check_order_first_status_changed_stage (row : CaseRow) (today : Int) : String × String :=
  let r := evaluate_order_first_status_row row today
  (combine_results [r.1], combine_completion_statuses [r.2])

/-- Association-list lookup used in place of Python `dict` access (`None` when
the key is absent). -/
def lookup_str {α : Type} : List (String × α) → String → Option α
  | [], _ => none
  | (k, v) :: rest, key => if k = key then some v else lookup_str rest key

/-- `terms_checks_config.LAWSUIT_CHECKS_MAPPING`, keys in the source dict
order. -/
def LAWSUIT_CHECKS_MAPPING : List (String × List String) :=
  [("exceptions", ["exceptionStatus"]),
   ("underConsideration", ["nextHearing3days", "hearingInterval2days", "consideration60days"]),
   ("decisionMade", ["decision45days", "decisionReceipt3days", "decisionTransfer1day"]),
   ("courtReaction", ["courtReaction7days"]),
   ("firstStatusChanged", ["firstStatusChanged14days"]),
   ("closed", ["closed125days"]),
   ("executionDocumentReceived", ["executionDocumentReceivedL"])]

/-- `terms_checks_config.ORDER_CHECKS_MAPPING`, keys in the source dict
order. -/
def ORDER_CHECKS_MAPPING : List (String × List String) :=
  [("exceptions", ["exceptionStatus"]),
   ("closed", ["closed90Days"]),
   ("executionDocumentReceived", ["executionDocumentReceivedO"]),
   ("courtReaction", ["courtReaction60Days"]),
   ("firstStatusChanged", ["firstStatus14Days"])]

/-- The lawsuit branch of `calculate_row_status` inside
`terms_analyzer_v2.build_production_table`: dispatch on the case stage through
the ordered keys of `LAWSUIT_CHECKS_MAPPING`; an unmatched stage yields
`("no_data", "false")`. -/
def calculate_row_status_lawsuit (docs : List ProcDoc) (cal : Calendar) (today : Int)
    (row : CaseRow) (stage : String) : String × String :=
  let stages := LAWSUIT_CHECKS_MAPPING.map Prod.fst
  if stage = stages.getD 0 "" then check_lawsuit_exceptions_stage row today
  else if stage = stages.getD 1 "" then check_lawsuit_under_consideration_stage row today cal
  else if stage = stages.getD 2 "" then check_lawsuit_decision_made_stage row today
  else if stage = stages.getD 3 "" then check_lawsuit_court_reaction_stage row today cal
  else if stage = stages.getD 4 "" then check_lawsuit_first_status_changed_stage row today
  else if stage = stages.getD 5 "" then check_lawsuit_closed_stage row today
  else if stage = stages.getD 6 "" then check_lawsuit_execution_document_received_stage row docs
  else ("no_data", "false")

/-- The order branch of `calculate_row_status` inside
`terms_analyzer_v2.build_production_table`. -/
def calculate_row_status_order (docs : List ProcDoc) (today : Int)
    (row : CaseRow) (stage : String) : String × String :=
  let stages := ORDER_CHECKS_MAPPING.map Prod.fst
  if stage = stages.getD 0 "" then check_order_exceptions_stage row today
  else if stage = stages.getD 1 "" then check_order_closed_stage row today
  else if stage = stages.getD 2 "" then check_order_execution_document_received_stage row docs
  else if stage = stages.getD 3 "" then check_order_court_reaction_stage row today
  else if stage = stages.getD 4 "" then check_order_first_status_changed_stage row today
  else ("no_data", "false")

/-- `pd.Series.isin` over status constants. -/
def cell_isin (c : Cell) (vals : List String) : Bool :=
  vals.any (fun v => decide (c = Cell.textVal v))

/-- Which physical columns exist in the input DataFrame (`col in df.columns`);
a per-column flag per guard in the source. -/
structure ColsPresent where
  hasCaseStatus : Bool := true
  hasCaseClosingDate : Bool := true
  hasActualTransferDate : Bool := true
  hasActualReceiptDate : Bool := true
  hasCharacteristicsFinalCourtAct : Bool := true
  hasCategory : Bool := true
  hasMethodOfProtection : Bool := true
  deriving DecidableEq

instance : Inhabited ColsPresent := ⟨{}⟩

/-- The per-row semantics of `lawsuit_stage_v2.assign_lawsuit_stages`: the
vectorized masks, restricted to one row.  Every assignment in the source is
guarded by the presence of the case-status column, each date-mask contribution
by its own column's presence, and each mask excludes all earlier masks, so one
row receives the first matching label in priority order (default
`outside_stage_filters`). -/
def assign_lawsuit_stage (cols : ColsPresent) (row : CaseRow) : String :=
  let exception_mask := cols.hasCaseStatus &&
    cell_isin row.caseStatus
      [VALUES_REOPENED, VALUES_COMPLAINT_FILED, VALUES_ERROR_DUBLICATE,
       VALUES_WITHDRAWN_BY_THE_INITIATOR]
  let closed_mask :=
    (cols.hasCaseStatus && cell_isin row.caseStatus [VALUES_CONDITIONALLY_CLOSED, VALUES_CLOSED])
      || (cols.hasCaseClosingDate && row.caseClosingDate.notna)
  let execution_mask :=
    (cols.hasCaseStatus && decide (row.caseStatus = .textVal VALUES_COURT_ACT_IN_FORCE))
      || (cols.hasActualTransferDate && row.actualTransferDate.notna)
      || (cols.hasActualReceiptDate && row.actualReceiptDate.notna)
  let decision_mask :=
    (cols.hasCaseStatus && decide (row.caseStatus = .textVal VALUES_DECISION_MADE))
      || (cols.hasCharacteristicsFinalCourtAct && row.characteristicsFinalCourtAct.notna)
  let under_consideration_mask := decide (row.caseStatus = .textVal VALUES_UNDER_CONSIDERATION)
  let court_reaction_mask := decide (row.caseStatus = .textVal VALUES_AWAITING_COURT_RESPONSE)
  let first_status_mask := decide (row.caseStatus = .textVal VALUES_PREPARATION_OF_DOCUMENTS)
  if !cols.hasCaseStatus then "outside_stage_filters"
  else if exception_mask then "exceptions"
  else if closed_mask then "closed"
  else if execution_mask then "executionDocumentReceived"
  else if decision_mask then "decisionMade"
  else if under_consideration_mask then "underConsideration"
  else if court_reaction_mask then "courtReaction"
  else if first_status_mask then "firstStatusChanged"
  else "outside_stage_filters"

/-- The per-row semantics of `order_stage_v2.assign_order_stages` (the source
indexes the case-status column unconditionally; only the closing, receipt and
transfer date columns are presence-guarded). -/
def assign_order_stage (cols : ColsPresent) (row : CaseRow) : String :=
  let exception_mask :=
    cell_isin row.caseStatus
      [VALUES_REOPENED, VALUES_COMPLAINT_FILED, VALUES_ERROR_DUBLICATE,
       VALUES_WITHDRAWN_BY_THE_INITIATOR]
  let closed_mask := decide (row.caseStatus = .textVal VALUES_CLOSED)
    || (cols.hasCaseClosingDate && row.caseClosingDate.notna)
  let execution_mask := decide (row.caseStatus = .textVal VALUES_CONDITIONALLY_CLOSED)
    || (cols.hasActualReceiptDate && row.actualReceiptDate.notna)
    || (cols.hasActualTransferDate && row.actualTransferDate.notna)
  let court_reaction_mask := decide (row.caseStatus = .textVal VALUES_AWAITING_COURT_RESPONSE)
  let first_status_mask := decide (row.caseStatus = .textVal VALUES_PREPARATION_OF_DOCUMENTS)
  if exception_mask then "exceptions"
  else if closed_mask then "closed"
  else if execution_mask then "executionDocumentReceived"
  else if court_reaction_mask then "courtReaction"
  else if first_status_mask then "firstStatusChanged"
  else "outside_stage_filters"

/-- The closed lawsuit stage set. -/
def LAWSUIT_STAGES : List String :=
  ["exceptions", "closed", "executionDocumentReceived", "decisionMade",
   "underConsideration", "courtReaction", "firstStatusChanged", "outside_stage_filters"]

/-- The closed order stage set. -/
def ORDER_STAGES : List String :=
  ["exceptions", "closed", "executionDocumentReceived", "courtReaction",
   "firstStatusChanged", "outside_stage_filters"]

/-- `utils.filter_production_cases`: keeps the rows matching the production
type's category/method filters (neutral when a column is absent) and raises
`ValueError` on an unknown production type. -/
def filter_production_cases (cols : ColsPresent) (df : List CaseRow) (production_type : String) :
    Except String (List CaseRow) :=
  if production_type = "lawsuit" then
    .ok (df.filter (fun row =>
      (!cols.hasCategory || decide (row.category = .textVal VALUES_CLAIM_FROM_BANK)) &&
      (!cols.hasMethodOfProtection ||
        decide (row.methodOfProtection = .textVal VALUES_CLAIM_PROCEEDINGS))))
  else if production_type = "order" then
    .ok (df.filter (fun row =>
      (!cols.hasCategory || decide (row.category = .textVal VALUES_CLAIM_FROM_BANK)) &&
      (!cols.hasMethodOfProtection ||
        decide (row.methodOfProtection = .textVal VALUES_ORDER_PRODUCTION))))
  else .error ("Неизвестный тип производства: " ++ production_type)

/-- The stage-assignment dispatch at the head of
`terms_analyzer_v2.build_production_table`: `assign_lawsuit_stages` for
`'lawsuit'`, `assign_order_stages` for `'order'`, `raise ValueError`
otherwise. -/
def build_production_table_assign_stage (production_type : String) (cols : ColsPresent)
    (row : CaseRow) : Except String String :=
  if production_type = "lawsuit" then .ok (assign_lawsuit_stage cols row)
  else if production_type = "order" then .ok (assign_order_stage cols row)
  else .error ("Неизвестный тип производства: " ++ production_type)

/-- One document-transaction row (`pd.Series` of the documents report):
request/receipt/transfer dates and the free-text response essence. -/
structure DocRow where
  caseCode : Cell := .missing
  documentType : Cell := .missing
  department : Cell := .missing
  requestDate : Cell := .missing
  receiptDate : Cell := .missing
  transferDate : Cell := .missing
  responseEssence : Cell := .missing
  deriving DecidableEq

instance : Inhabited DocRow := ⟨{}⟩

/-- Body of `document_row_analyzer_v2.evaluate_document_row` (14 calendar days
from the request date; after the deadline the transfer-confirmation sentinel in
`responseEssence` decides). -/
def evaluate_document_row_body (row : DocRow) (today : Int) : Except Unit String :=
  match row.requestDate with
  | .missing => .ok "no_data"
  | request_date_value =>
    match to_datetime request_date_value with
    | .error e => .error e
    | .ok request_date =>
      let deadline_date := request_date + 14
      let is_transfer_confirmed :=
        decide (row.responseEssence = .textVal "Передача подтверждена")
      if today > deadline_date then
        .ok (if is_transfer_confirmed then "timely" else "overdue")
      else
        .ok "timely"

/-- `document_row_analyzer_v2.evaluate_document_row`, with its
`except Exception: return "no_data"` handler. -/
def evaluate_document_row (row : DocRow) (today : Int) : String :=
  match evaluate_document_row_body row today with
  | .ok s => s
  | .error _ => "no_data"

/-- Dates of a document-group column: `pd.to_datetime` of `f` on every row
(raising if any value is not a date, as the `idxmax`/conversion code in the
group loop would). -/
def docs_dates (f : DocRow → Cell) : List DocRow → Except Unit (List (Int × DocRow))
  | [] => .ok []
  | r :: rest =>
    match f r with
    | .dateVal d =>
      match docs_dates f rest with
      | .ok tail => .ok ((d, r) :: tail)
      | .error e => .error e
    | _ => .error ()

/-- `pd.Series.idxmax` over a keyed list: the first entry with the maximal
key. -/
def idxmax : List (Int × DocRow) → Option (Int × DocRow)
  | [] => none
  | p :: rest =>
    match idxmax rest with
    | none => some p
    | some q => if q.1 > p.1 then some q else some p

/-- The per-group body of `terms_analyzer_v2.calculate_documents_term_status`:
among the group's rows (already filtered to a non-null receipt date upstream),
judge the latest transferred document against the 2-working-day turnaround, or,
when no row has a transfer date, judge the latest received document against
today, with the `upcoming_deadline` refinement; any exception inside a block
degrades that group to `no_data`. -/
def calculate_documents_group_status (cal : Calendar) (today : Int) (doc_group : List DocRow) :
    String :=
  let group_with_transfer := doc_group.filter (fun r => r.transferDate.notna)
  let group_without_transfer := doc_group.filter (fun r => !r.transferDate.notna)
  if !group_with_transfer.isEmpty then
    match (match docs_dates (fun r => r.transferDate) group_with_transfer with
           | .error e => .error e
           | .ok dated =>
             match idxmax dated with
             | none => .error ()
             | some latest =>
               match to_datetime latest.2.receiptDate with
               | .error e => .error e
               | .ok receipt_date =>
                 match to_datetime latest.2.transferDate with
                 | .error e => .error e
                 | .ok transfer_date =>
                   let working_days := cal.get_working_days_between receipt_date transfer_date
                   .ok (if working_days ≤ 2 then "timely" else "overdue") :
             Except Unit String) with
    | .ok status => status
    | .error _ => "no_data"
  else if !group_without_transfer.isEmpty then
    match (match docs_dates (fun r => r.receiptDate) group_without_transfer with
           | .error e => .error e
           | .ok dated =>
             match idxmax dated with
             | none => .error ()
             | some latest =>
               match to_datetime latest.2.receiptDate with
               | .error e => .error e
               | .ok receipt_date =>
                 let working_days_since_receipt := cal.get_working_days_between receipt_date today
                 let deadline_date := cal.add_working_days receipt_date 2
                 let calendar_days_until_deadline := deadline_date - today
                 .ok (if working_days_since_receipt > 2 then "overdue"
                      else if today < deadline_date then
                        (if calendar_days_until_deadline ≤ 14 then "upcoming_deadline"
                         else "timely")
                      else "overdue") :
             Except Unit String) with
    | .ok status => status
    | .error _ => "no_data"
  else "no_data"

/-- The document-turnaround classification exactly as claim C2 words it (the
spec's sentence, stated for comparison with the source-derived
`calculate_documents_group_status`): with a transfer, timely when the
receipt-to-transfer working days are at most 2; with no transfer, overdue when
the receipt-to-today working days exceed 2, otherwise timely unless today is
within 14 calendar days of the deadline, in which case upcoming_deadline. -/
def claimed_documents_group_status (cal : Calendar) (today : Int) (doc_group : List DocRow) :
    String :=
  let group_with_transfer := doc_group.filter (fun r => r.transferDate.notna)
  let group_without_transfer := doc_group.filter (fun r => !r.transferDate.notna)
  if !group_with_transfer.isEmpty then
    match docs_dates (fun r => r.transferDate) group_with_transfer with
    | .error _ => "no_data"
    | .ok dated =>
      match idxmax dated with
      | none => "no_data"
      | some latest =>
        match to_datetime latest.2.receiptDate, to_datetime latest.2.transferDate with
        | .ok receipt_date, .ok transfer_date =>
          if cal.get_working_days_between receipt_date transfer_date ≤ 2 then "timely"
          else "overdue"
        | _, _ => "no_data"
  else if !group_without_transfer.isEmpty then
    match docs_dates (fun r => r.receiptDate) group_without_transfer with
    | .error _ => "no_data"
    | .ok dated =>
      match idxmax dated with
      | none => "no_data"
      | some latest =>
        match to_datetime latest.2.receiptDate with
        | .error _ => "no_data"
        | .ok receipt_date =>
          let deadline_date := cal.add_working_days receipt_date 2
          if cal.get_working_days_between receipt_date today > 2 then "overdue"
          else if deadline_date - today ≤ 14 then "upcoming_deadline"
          else "timely"
  else "no_data"

/-- The trigger part of one TaskSpec (`TASK_MAPPINGS` entry): an optional
special-condition predicate, an optional check index and an optional pair of
expected (completion, status) strings — `Option` mirrors the presence of the
corresponding `dict` key. -/
structure SpecialConditions where
  column : Option String := none
  value : Option String := none
  status : Option String := none
  has_transfer_date : Option Bool := none
  check_type : Option String := none
  deriving DecidableEq

/-- One TaskSpec of `TASK_MAPPINGS`. -/
structure TaskConfig where
  failed_check_name : String := ""
  task_text : String := ""
  reason_text : String := ""
  index : Option Nat := none
  conditions : Option (List String) := none
  special_conditions : Option SpecialConditions := none
  deriving DecidableEq

instance : Inhabited TaskConfig := ⟨{}⟩

/-- One row of the staged (and column-enriched) case table consumed by the
task analyzer: the composite status strings plus the enrichment columns
addressed by name. -/
structure TaskRow where
  caseStage : String := ""
  monitoringStatus : String := ""
  completionStatus : String := ""
  caseCode : Cell := .missing
  responsibleExecutor : Cell := .missing
  extra : List (String × Cell) := []
  deriving DecidableEq

instance : Inhabited TaskRow := ⟨{}⟩

/-- Whether `pat` is an initial segment of `s`. -/
def chars_start_with : List Char → List Char → Bool
  | _, [] => true
  | [], _ :: _ => false
  | c :: cs, p :: ps => c = p && chars_start_with cs ps

/-- Whether `pat` occurs inside `s`. -/
def contains_chars (pat : List Char) : List Char → Bool
  | [] => chars_start_with [] pat
  | c :: rest => chars_start_with (c :: rest) pat || contains_chars pat rest

/-- Python `pattern in s` — substring membership. -/
def contains_substr (s pattern : String) : Bool :=
  contains_chars pattern.data s.data

/-- `TaskAnalyzer._check_special_conditions`: the three supported
special-condition kinds, an unknown kind being a non-match. -/
def check_special_conditions (row : TaskRow) (special_conditions : SpecialConditions) : Bool :=
  match special_conditions.column, special_conditions.value with
  | some column_name, some expected_value =>
    match lookup_str row.extra column_name with
    | none => false
    | some actual_value =>
      if actual_value = Cell.missing then false
      else (cellStr actual_value).trim = expected_value.trim
  | _, _ =>
  match special_conditions.status, special_conditions.has_transfer_date with
  | some expected_status, some needs_transfer_date =>
    let current_status :=
      ["Статус", "STATUS", "status", "CASE_STATUS"].findSome?
        (fun col => lookup_str row.extra col)
    match current_status with
    | none => false
    | some cs =>
      if (cellStr cs).trim ≠ expected_status then false
      else
        let has_date :=
          ["Фактическая дата передачи ИД", "TRANSFER_DATE", "transfer_date"].any
            (fun col =>
              match lookup_str row.extra col with
              | some transfer_date => transfer_date.notna
              | none => false)
        has_date = needs_transfer_date
  | _, _ =>
  match special_conditions.check_type with
  | some check_type =>
    if check_type = "court_order_delivery" then
      let case_type :=
        match lookup_str row.extra "METHOD_OF_PROTECTION" with
        | some v => cellStr v
        | none => ""
      contains_substr case_type "Приказное"
    else false
  | none => false

/-- `TaskAnalyzer._check_task_conditions`: split the composite strings on `;`
and compare the part at the trigger index (lower-cased) with the expected
completion and status; out-of-range indices and missing config keys are
non-matches (the source returns `False`, also from its `except` handler). -/
def check_task_conditions (row : TaskRow) (task_config : TaskConfig) : Bool :=
  let monitoring_parts := split_on_semicolon row.monitoringStatus
  let completion_parts := split_on_semicolon row.completionStatus
  match task_config.index, task_config.conditions with
  | some index, some conditions =>
    if index < completion_parts.length && index < monitoring_parts.length then
      match conditions.get? 0, conditions.get? 1 with
      | some c0, some c1 =>
        decide (lower_str (completion_parts.getD index "") = c0) &&
        decide (lower_str (monitoring_parts.getD index "") = c1)
      | _, _ => false
    else false
  | _, _ => false

/-- `TaskAnalyzer._get_failed_checks_for_stage`: the stage's TaskSpecs whose
trigger fires on this row (special conditions first, else index conditions). -/
def get_failed_checks_for_stage (row : TaskRow) (stage_tasks : List TaskConfig) :
    List TaskConfig :=
  stage_tasks.filter (fun task_config =>
    match task_config.special_conditions with
    | some sc => check_special_conditions row sc
    | none =>
      match task_config.conditions with
      | some _ => check_task_conditions row task_config
      | none => false)

/-- One synthesized work item (`_format_lawsuit_task` output). -/
structure TaskItem where
  taskCode : String
  caseCode : String
  responsibleExecutor : String
  caseStage : String
  failedCheck : String
  taskText : String
  reasonText : String
  monitoringStatus : String
  sourceType : String
  isCompleted : Bool
  createdDate : String
  deriving DecidableEq

/-- `row.get(key, "unknown")` followed by the NaN/empty fallback. -/
def cell_or_unknown : Cell → String
  | .missing => "unknown"
  | c => cellStr c

/-- `TaskAnalyzer._generate_task_code`: `TASK_` followed by the zero-padded
7-digit counter. -/
def generate_task_code (counter : Nat) : String :=
  let s := toString counter
  "TASK_" ++ String.mk (List.replicate (7 - s.length) '0') ++ s

/-- `TaskAnalyzer._get_failed_check_display_name`:
`CHECK_DISPLAY_NAMES.get(name, name)` with the display-name table passed
explicitly (the `check_display_names.py` config module is not under `src/`). -/
def get_failed_check_display_name (display_names : List (String × String)) (name : String) :
    String :=
  (lookup_str display_names name).getD name

/-- `TaskAnalyzer._format_lawsuit_task`: builds one task from
`failed_checks[0]` (`created` stands for `datetime.now().strftime(...)`). -/
def format_lawsuit_task (display_names : List (String × String)) (created : String)
    (task_code : String) (row : TaskRow) (failed_checks : List TaskConfig)
    (case_stage : String) : TaskItem :=
  let task_data := failed_checks.headD {}
  { taskCode := task_code
    caseCode := cell_or_unknown row.caseCode
    responsibleExecutor := cell_or_unknown row.responsibleExecutor
    caseStage := case_stage
    failedCheck := get_failed_check_display_name display_names task_data.failed_check_name
    taskText := task_data.task_text
    reasonText := task_data.reason_text
    monitoringStatus := row.monitoringStatus
    sourceType := "detailed"
    isCompleted := false
    createdDate := created }

/-- The row loop of `TaskAnalyzer._analyze_lawsuit_tasks`, with the task-code
counter threaded: a row whose stage has a TaskSpec list contributes one task
when its set of fired specs is non-empty, and nothing otherwise. -/
def analyze_lawsuit_tasks_from (mappings : List (String × List TaskConfig))
    (display_names : List (String × String)) (created : String) :
    List TaskRow → Nat → List TaskItem
  | [], _ => []
  | row :: rest, counter =>
    match lookup_str mappings row.caseStage with
    | some stage_tasks =>
      let failed_checks := get_failed_checks_for_stage row stage_tasks
      if failed_checks.isEmpty then
        analyze_lawsuit_tasks_from mappings display_names created rest counter
      else
        format_lawsuit_task display_names created (generate_task_code counter) row
            failed_checks row.caseStage
          :: analyze_lawsuit_tasks_from mappings display_names created rest (counter + 1)
    | none => analyze_lawsuit_tasks_from mappings display_names created rest counter

/-- `TaskAnalyzer._analyze_lawsuit_tasks` over `TASK_MAPPINGS["lawsuit"]`
(passed explicitly), starting from the reset counter value 1. -/
def analyze_lawsuit_tasks (mappings : List (String × List TaskConfig))
    (display_names : List (String × String)) (created : String) (rows : List TaskRow) :
    List TaskItem :=
  analyze_lawsuit_tasks_from mappings display_names created rows 1

/-- C4: for the generic calendar-day checks (anchor `A`, offset `N`, here the
lawsuit closing check with `N = 125` and its 90/45/3/1-day siblings): without a
completion date, `today = A + N` is timely and `today = A + N + 1` is overdue,
both uncompleted; with a completion date, the check is timely exactly when the
completion date is on or before `A + N`, and completed either way. -/
theorem C4_generic_calendar_day_checks (A c today : Int) :
    (evaluate_closed_row { firstFilingDate := .dateVal A } (A + 125) = ("timely", false)
      ∧ evaluate_closed_row { firstFilingDate := .dateVal A } (A + 125 + 1) = ("overdue", false)
      ∧ (c ≤ A + 125 →
          evaluate_closed_row { firstFilingDate := .dateVal A, caseClosingDate := .dateVal c }
            today = ("timely", true))
      ∧ (c > A + 125 →
          evaluate_closed_row { firstFilingDate := .dateVal A, caseClosingDate := .dateVal c }
            today = ("overdue", true)))
    ∧ (evaluate_order_closed_row { firstFilingDate := .dateVal A } (A + 90) = ("timely", false)
      ∧ evaluate_order_closed_row { firstFilingDate := .dateVal A } (A + 90 + 1)
          = ("overdue", false)
      ∧ (c ≤ A + 90 →
          evaluate_order_closed_row { firstFilingDate := .dateVal A, caseClosingDate := .dateVal c }
            today = ("timely", true))
      ∧ (c > A + 90 →
          evaluate_order_closed_row { firstFilingDate := .dateVal A, caseClosingDate := .dateVal c }
            today = ("overdue", true)))
    ∧ (evaluate_decision_date_row { decisionCourtDate := .dateVal A } (A + 45) = ("timely", false)
      ∧ evaluate_decision_date_row { decisionCourtDate := .dateVal A } (A + 45 + 1)
          = ("overdue", false)
      ∧ (c ≤ A + 45 →
          evaluate_decision_date_row
            { decisionCourtDate := .dateVal A, courtDecisionDate := .dateVal c } today
            = ("timely", true))
      ∧ (c > A + 45 →
          evaluate_decision_date_row
            { decisionCourtDate := .dateVal A, courtDecisionDate := .dateVal c } today
            = ("overdue", true)))
    ∧ (evaluate_decision_receipt_row { courtDecisionDate := .dateVal A } (A + 3)
          = ("timely", false)
      ∧ evaluate_decision_receipt_row { courtDecisionDate := .dateVal A } (A + 3 + 1)
          = ("overdue", false)
      ∧ (c ≤ A + 3 →
          evaluate_decision_receipt_row
            { courtDecisionDate := .dateVal A, decisionReceiptDate := .dateVal c } today
            = ("timely", true))
      ∧ (c > A + 3 →
          evaluate_decision_receipt_row
            { courtDecisionDate := .dateVal A, decisionReceiptDate := .dateVal c } today
            = ("overdue", true)))
    ∧ (evaluate_decision_transfer_row { courtDecisionDate := .dateVal A } (A + 1)
          = ("timely", false)
      ∧ evaluate_decision_transfer_row { courtDecisionDate := .dateVal A } (A + 1 + 1)
          = ("overdue", false)
      ∧ (c ≤ A + 1 →
          evaluate_decision_transfer_row
            { courtDecisionDate := .dateVal A, actualTransferDate := .dateVal c } today
            = ("timely", true))
      ∧ (c > A + 1 →
          evaluate_decision_transfer_row
            { courtDecisionDate := .dateVal A, actualTransferDate := .dateVal c } today
            = ("overdue", true))) := by
  refine ⟨⟨?_, ?_, fun h => ?_, fun h => ?_⟩, ⟨?_, ?_, fun h => ?_, fun h => ?_⟩,
    ⟨?_, ?_, fun h => ?_, fun h => ?_⟩, ⟨?_, ?_, fun h => ?_, fun h => ?_⟩,
    ⟨?_, ?_, fun h => ?_, fun h => ?_⟩⟩ <;>
    simp_all [evaluate_closed_row, evaluate_closed_row_body, evaluate_order_closed_row,
      evaluate_order_closed_row_body, evaluate_decision_date_row, evaluate_decision_date_row_body,
      evaluate_decision_receipt_row, evaluate_decision_receipt_row_body,
      evaluate_decision_transfer_row, evaluate_decision_transfer_row_body,
      get_filing_date, to_datetime, catch_no_data] <;>
    first
      | omega
      | (rw [if_neg (by omega)])

/-- Witness for C4: the spec's concrete instance, anchor day 0, `N = 125`;
hypotheses of the completion conjuncts discharged at `c = 100` and `c = 126`. -/
theorem C4_generic_calendar_day_checks_witness :
    evaluate_closed_row { firstFilingDate := .dateVal 0 } 125 = ("timely", false)
    ∧ evaluate_closed_row { firstFilingDate := .dateVal 0 } 126 = ("overdue", false)
    ∧ evaluate_closed_row { firstFilingDate := .dateVal 0, caseClosingDate := .dateVal 100 } 1
        = ("timely", true)
    ∧ evaluate_closed_row { firstFilingDate := .dateVal 0, caseClosingDate := .dateVal 126 } 1
        = ("overdue", true) :=
  ⟨(C4_generic_calendar_day_checks 0 100 1).1.1,
   (C4_generic_calendar_day_checks 0 100 1).1.2.1,
   (C4_generic_calendar_day_checks 0 100 1).1.2.2.1 (by decide),
   (C4_generic_calendar_day_checks 0 126 1).1.2.2.2 (by decide)⟩

/-- C5: any exception raised inside an evaluator body (malformed date,
unexpected type — the `Except.error` cases of the embedded bodies) is caught by
the evaluator's local handler and degrades to `no_data` with
`completed = false`; the published evaluators are total functions, so no
exception ever reaches the caller. -/
theorem C5_exceptions_caught_as_no_data (row : CaseRow) (doc : DocRow) (today : Int)
    (h1 : evaluate_closed_row_body row today = .error ())
    (h2 : evaluate_document_row_body doc today = .error ()) :
    evaluate_closed_row row today = ("no_data", false)
    ∧ evaluate_document_row doc today = "no_data" := by
  constructor
  · simp [evaluate_closed_row, catch_no_data, h1]
  · simp [evaluate_document_row, h2]

/-- Witness for C5: a malformed closing date and a malformed request date both
make the bodies raise, and both evaluators degrade to `no_data`. -/
theorem C5_exceptions_caught_as_no_data_witness :
    evaluate_closed_row_body
        { firstFilingDate := .dateVal 0, caseClosingDate := .textVal "garbage" } 1 = .error ()
    ∧ evaluate_document_row_body { requestDate := .textVal "garbage" } 1 = .error ()
    ∧ evaluate_closed_row
        { firstFilingDate := .dateVal 0, caseClosingDate := .textVal "garbage" } 1
        = ("no_data", false)
    ∧ evaluate_document_row { requestDate := .textVal "garbage" } 1 = "no_data" :=
  ⟨rfl, rfl,
   (C5_exceptions_caught_as_no_data
      { firstFilingDate := .dateVal 0, caseClosingDate := .textVal "garbage" }
      { requestDate := .textVal "garbage" } 1 rfl rfl).1,
   (C5_exceptions_caught_as_no_data
      { firstFilingDate := .dateVal 0, caseClosingDate := .textVal "garbage" }
      { requestDate := .textVal "garbage" } 1 rfl rfl).2⟩

/-- C3: for both production types the stage classifier is total over the closed
stage set (with `outside_stage_filters` as the catch-all), and the exceptions
predicate has top priority: a case with `caseStatus = Reopened` and a closing
date present is classified `exceptions`, not `closed`. -/
theorem C3_stage_assignment_total_and_priority (cols : ColsPresent) (row : CaseRow) :
    assign_lawsuit_stage cols row ∈ LAWSUIT_STAGES
    ∧ assign_order_stage cols row ∈ ORDER_STAGES
    ∧ (row.caseStatus = .textVal VALUES_REOPENED → row.caseClosingDate.notna = true →
        cols.hasCaseStatus = true →
        assign_lawsuit_stage cols row = "exceptions"
          ∧ assign_order_stage cols row = "exceptions") := by
  refine ⟨?_, ?_, fun h1 h2 h3 => ⟨?_, ?_⟩⟩
  · simp only [assign_lawsuit_stage]
    repeat' split
    all_goals decide
  · simp only [assign_order_stage]
    repeat' split
    all_goals decide
  · simp [assign_lawsuit_stage, cell_isin, h1, h3]
  · simp [assign_order_stage, cell_isin, h1]

/-- Witness for C3: a reopened case with a set closing date, all columns
present. -/
theorem C3_stage_assignment_total_and_priority_witness :
    assign_lawsuit_stage {}
        { caseStatus := .textVal VALUES_REOPENED, caseClosingDate := .dateVal 5 } = "exceptions"
    ∧ assign_order_stage {}
        { caseStatus := .textVal VALUES_REOPENED, caseClosingDate := .dateVal 5 }
        = "exceptions" :=
  (C3_stage_assignment_total_and_priority {}
    { caseStatus := .textVal VALUES_REOPENED, caseClosingDate := .dateVal 5 }).2.2
    rfl rfl rfl

/-- C6 counterexample: an unknown stage name is not a hard failure.  On a
concrete row whose stage is absent from every mapping, the status dispatcher
returns the ordinary per-row degradation `("no_data", "false")` and the task
analyzer completes normally with no tasks — the very behaviour the claim says
is reserved for per-row data problems, refuting "propagates as a hard
failure". -/
theorem C6_unknown_stage_counterexample :
    calculate_row_status_lawsuit [] allDaysCalendar 0 {} "bogusStage" = ("no_data", "false")
    ∧ calculate_row_status_order [] 0 {} "bogusStage" = ("no_data", "false")
    ∧ analyze_lawsuit_tasks [] [] "01.01.2024" [{ caseStage := "bogusStage" }] = [] := by
  refine ⟨?_, ?_, ?_⟩ <;> decide

/-- C6 as amended: an unknown production type does propagate as a hard failure
(`ValueError`) from both the case filter and the table builder, while an
unknown stage name does not fail: the task analyzer skips the row (producing no
tasks) and the status dispatcher degrades it to `("no_data", "false")`. -/
theorem C6_amended_configuration_errors (production_type : String) (cols : ColsPresent)
    (df : List CaseRow) (row : CaseRow) (stage : String) (stage_row : TaskRow)
    (mappings : List (String × List TaskConfig)) (display_names : List (String × String))
    (created : String) (docs : List ProcDoc) (cal : Calendar) (today : Int)
    (hp1 : production_type ≠ "lawsuit") (hp2 : production_type ≠ "order")
    (hstage1 : stage ∉ LAWSUIT_CHECKS_MAPPING.map Prod.fst)
    (hstage2 : stage ∉ ORDER_CHECKS_MAPPING.map Prod.fst)
    (hstage3 : lookup_str mappings stage_row.caseStage = none) :
    filter_production_cases cols df production_type
        = .error ("Неизвестный тип производства: " ++ production_type)
    ∧ build_production_table_assign_stage production_type cols row
        = .error ("Неизвестный тип производства: " ++ production_type)
    ∧ calculate_row_status_lawsuit docs cal today row stage = ("no_data", "false")
    ∧ calculate_row_status_order docs today row stage = ("no_data", "false")
    ∧ analyze_lawsuit_tasks mappings display_names created [stage_row] = [] := by
  simp only [LAWSUIT_CHECKS_MAPPING, ORDER_CHECKS_MAPPING, List.map, List.mem_cons,
    List.not_mem_nil, or_false] at hstage1 hstage2
  push_neg at hstage1 hstage2
  refine ⟨?_, ?_, ?_, ?_, ?_⟩
  · simp [filter_production_cases, hp1, hp2]
  · simp [build_production_table_assign_stage, hp1, hp2]
  · simp [calculate_row_status_lawsuit, LAWSUIT_CHECKS_MAPPING, hstage1.1, hstage1.2.1,
      hstage1.2.2.1, hstage1.2.2.2.1, hstage1.2.2.2.2.1, hstage1.2.2.2.2.2.1,
      hstage1.2.2.2.2.2.2]
  · simp [calculate_row_status_order, ORDER_CHECKS_MAPPING, hstage2.1, hstage2.2.1,
      hstage2.2.2.1, hstage2.2.2.2.1, hstage2.2.2.2.2]
  · simp [analyze_lawsuit_tasks, analyze_lawsuit_tasks_from, hstage3]

/-- Witness for C6 as amended: production type `"documents"`, stage
`"bogusStage"`, empty mappings. -/
theorem C6_amended_configuration_errors_witness :
    filter_production_cases {} [] "documents"
        = .error ("Неизвестный тип производства: " ++ "documents")
    ∧ build_production_table_assign_stage "documents" {} {}
        = .error ("Неизвестный тип производства: " ++ "documents")
    ∧ calculate_row_status_lawsuit [] allDaysCalendar 7 {} "bogusStage" = ("no_data", "false")
    ∧ calculate_row_status_order [] 7 {} "bogusStage" = ("no_data", "false")
    ∧ analyze_lawsuit_tasks [] [] "02.02.2024" [{ caseStage := "bogusStage" }] = [] :=
  C6_amended_configuration_errors "documents" {} [] {} "bogusStage" { caseStage := "bogusStage" }
    [] [] "02.02.2024" [] allDaysCalendar 7
    (by decide) (by decide) (by decide) (by decide) (by decide)

lemma catch_fst_cases (b : Except Unit (String × Bool))
    (h : ∀ v, b = .ok v → (v.1 = "timely" ∨ v.1 = "overdue" ∨ v.1 = "no_data")) :
    (catch_no_data b).1 = "timely" ∨ (catch_no_data b).1 = "overdue"
      ∨ (catch_no_data b).1 = "no_data" := by
  cases b with
  | error e => simp [catch_no_data]
  | ok v => simpa [catch_no_data] using h v rfl

lemma evaluate_closed_row_status_cases (row : CaseRow) (today : Int) :
    (evaluate_closed_row row today).1 = "timely" ∨ (evaluate_closed_row row today).1 = "overdue"
      ∨ (evaluate_closed_row row today).1 = "no_data" := by
  unfold evaluate_closed_row
  refine catch_fst_cases _ (fun v hb => ?_)
  simp only [evaluate_closed_row_body] at hb
  (repeat' split at hb) <;>
    first
      | exact Except.noConfusion hb
      | (injection hb with hb; subst hb; first | (split <;> simp_all) | simp | simp_all)
      | simp_all

lemma evaluate_order_closed_row_status_cases (row : CaseRow) (today : Int) :
    (evaluate_order_closed_row row today).1 = "timely"
      ∨ (evaluate_order_closed_row row today).1 = "overdue"
      ∨ (evaluate_order_closed_row row today).1 = "no_data" := by
  unfold evaluate_order_closed_row
  refine catch_fst_cases _ (fun v hb => ?_)
  simp only [evaluate_order_closed_row_body] at hb
  (repeat' split at hb) <;>
    first
      | exact Except.noConfusion hb
      | (injection hb with hb; subst hb; first | (split <;> simp_all) | simp | simp_all)
      | simp_all

lemma evaluate_decision_date_row_status_cases (row : CaseRow) (today : Int) :
    (evaluate_decision_date_row row today).1 = "timely"
      ∨ (evaluate_decision_date_row row today).1 = "overdue"
      ∨ (evaluate_decision_date_row row today).1 = "no_data" := by
  unfold evaluate_decision_date_row
  refine catch_fst_cases _ (fun v hb => ?_)
  simp only [evaluate_decision_date_row_body] at hb
  (repeat' split at hb) <;>
    first
      | exact Except.noConfusion hb
      | (injection hb with hb; subst hb; first | (split <;> simp_all) | simp | simp_all)
      | simp_all

lemma evaluate_decision_receipt_row_status_cases (row : CaseRow) (today : Int) :
    (evaluate_decision_receipt_row row today).1 = "timely"
      ∨ (evaluate_decision_receipt_row row today).1 = "overdue"
      ∨ (evaluate_decision_receipt_row row today).1 = "no_data" := by
  unfold evaluate_decision_receipt_row
  refine catch_fst_cases _ (fun v hb => ?_)
  simp only [evaluate_decision_receipt_row_body] at hb
  (repeat' split at hb) <;>
    first
      | exact Except.noConfusion hb
      | (injection hb with hb; subst hb; first | (split <;> simp_all) | simp | simp_all)
      | simp_all

lemma evaluate_decision_transfer_row_status_cases (row : CaseRow) (today : Int) :
    (evaluate_decision_transfer_row row today).1 = "timely"
      ∨ (evaluate_decision_transfer_row row today).1 = "overdue"
      ∨ (evaluate_decision_transfer_row row today).1 = "no_data" := by
  unfold evaluate_decision_transfer_row
  refine catch_fst_cases _ (fun v hb => ?_)
  simp only [evaluate_decision_transfer_row_body] at hb
  (repeat' split at hb) <;>
    first
      | exact Except.noConfusion hb
      | (injection hb with hb; subst hb; first | (split <;> simp_all) | simp | simp_all)
      | simp_all

lemma evaluate_next_hearing_present_row_status_cases (row : CaseRow) (today : Int)
    (cal : Calendar) :
    (evaluate_next_hearing_present_row row today cal).1 = "timely"
      ∨ (evaluate_next_hearing_present_row row today cal).1 = "overdue"
      ∨ (evaluate_next_hearing_present_row row today cal).1 = "no_data" := by
  unfold evaluate_next_hearing_present_row
  refine catch_fst_cases _ (fun v hb => ?_)
  simp only [evaluate_next_hearing_present_row_body] at hb
  (repeat' split at hb) <;>
    first
      | exact Except.noConfusion hb
      | (injection hb with hb; subst hb; first | (split <;> simp_all) | simp | simp_all)
      | simp_all

lemma evaluate_prev_to_next_hearing_row_status_cases (row : CaseRow) (cal : Calendar)
    (today : Int) :
    (evaluate_prev_to_next_hearing_row row cal today).1 = "timely"
      ∨ (evaluate_prev_to_next_hearing_row row cal today).1 = "overdue"
      ∨ (evaluate_prev_to_next_hearing_row row cal today).1 = "no_data" := by
  unfold evaluate_prev_to_next_hearing_row
  refine catch_fst_cases _ (fun v hb => ?_)
  simp only [evaluate_prev_to_next_hearing_row_body] at hb
  (repeat' split at hb) <;>
    first
      | exact Except.noConfusion hb
      | (injection hb with hb; subst hb; first | (split <;> simp_all) | simp | simp_all)
      | simp_all

lemma evaluate_under_consideration_60days_row_status_cases (row : CaseRow) (today : Int) :
    (evaluate_under_consideration_60days_row row today).1 = "timely"
      ∨ (evaluate_under_consideration_60days_row row today).1 = "overdue"
      ∨ (evaluate_under_consideration_60days_row row today).1 = "no_data" := by
  unfold evaluate_under_consideration_60days_row
  refine catch_fst_cases _ (fun v hb => ?_)
  simp only [evaluate_under_consideration_60days_row_body] at hb
  (repeat' split at hb) <;>
    first
      | exact Except.noConfusion hb
      | (injection hb with hb; subst hb; first | (split <;> simp_all) | simp | simp_all)
      | simp_all

lemma evaluate_court_reaction_row_status_cases (row : CaseRow) (today : Int) (cal : Calendar) :
    (evaluate_court_reaction_row row today cal).1 = "timely"
      ∨ (evaluate_court_reaction_row row today cal).1 = "overdue"
      ∨ (evaluate_court_reaction_row row today cal).1 = "no_data" := by
  unfold evaluate_court_reaction_row
  refine catch_fst_cases _ (fun v hb => ?_)
  simp only [evaluate_court_reaction_row_body] at hb
  (repeat' split at hb) <;>
    first
      | exact Except.noConfusion hb
      | (injection hb with hb; subst hb; first | (split <;> simp_all) | simp | simp_all)
      | simp_all

lemma evaluate_first_status_changed_row_status_cases (row : CaseRow) (today : Int) :
    (evaluate_first_status_changed_row row today).1 = "timely"
      ∨ (evaluate_first_status_changed_row row today).1 = "overdue"
      ∨ (evaluate_first_status_changed_row row today).1 = "no_data" := by
  unfold evaluate_first_status_changed_row
  refine catch_fst_cases _ (fun v hb => ?_)
  simp only [evaluate_first_status_changed_row_body] at hb
  (repeat' split at hb) <;>
    first
      | exact Except.noConfusion hb
      | (injection hb with hb; subst hb; first | (split <;> simp_all) | simp | simp_all)
      | simp_all

lemma evaluate_order_court_reaction_row_status_cases (row : CaseRow) (today : Int) :
    (evaluate_order_court_reaction_row row today).1 = "timely"
      ∨ (evaluate_order_court_reaction_row row today).1 = "overdue"
      ∨ (evaluate_order_court_reaction_row row today).1 = "no_data" := by
  unfold evaluate_order_court_reaction_row
  refine catch_fst_cases _ (fun v hb => ?_)
  simp only [evaluate_order_court_reaction_row_body] at hb
  (repeat' split at hb) <;>
    first
      | exact Except.noConfusion hb
      | (injection hb with hb; subst hb; first | (split <;> simp_all) | simp | simp_all)
      | simp_all

lemma evaluate_order_first_status_row_status_cases (row : CaseRow) (today : Int) :
    (evaluate_order_first_status_row row today).1 = "timely"
      ∨ (evaluate_order_first_status_row row today).1 = "overdue"
      ∨ (evaluate_order_first_status_row row today).1 = "no_data" := by
  unfold evaluate_order_first_status_row
  refine catch_fst_cases _ (fun v hb => ?_)
  simp only [evaluate_order_first_status_row_body] at hb
  (repeat' split at hb) <;>
    first
      | exact Except.noConfusion hb
      | (injection hb with hb; subst hb; first | (split <;> simp_all) | simp | simp_all)
      | simp_all

lemma evaluate_exceptions_row_cases (row : CaseRow) :
    evaluate_exceptions_row row = "reopened" ∨ evaluate_exceptions_row row = "complaint_filed"
      ∨ evaluate_exceptions_row row = "error_dublicate"
      ∨ evaluate_exceptions_row row = "withdraw_by_the_initiator"
      ∨ evaluate_exceptions_row row = "no_data" := by
  unfold evaluate_exceptions_row
  (repeat' split) <;> simp

lemma evaluate_execution_document_received_row_status_cases (row : CaseRow)
    (docs : List ProcDoc)
    (hdocs : ∀ d ∈ docs, d.monitoringStatus = "timely" ∨ d.monitoringStatus = "overdue"
       ∨ d.monitoringStatus = "no_data" ∨ d.monitoringStatus = "upcoming_deadline") :
    (evaluate_execution_document_received_row row docs).1 = "timely"
      ∨ (evaluate_execution_document_received_row row docs).1 = "overdue"
      ∨ (evaluate_execution_document_received_row row docs).1 = "no_data"
      ∨ (evaluate_execution_document_received_row row docs).1 = "upcoming_deadline" := by
  unfold evaluate_execution_document_received_row
  cases hcc : row.caseCode with
  | missing => simp [catch_no_data, hcc]
  | dateVal d =>
    simp only [catch_no_data, hcc]
    cases hde : docs.isEmpty
    · cases hfilter : docs.filter (fun x =>
          decide (x.caseCode = Cell.dateVal d) && decide (x.department = "ПСИП") &&
          decide (x.document = "Исполнительный лист")) with
      | nil => simp [hde, hfilter]
      | cons doc rest =>
        have h1 : doc ∈ List.filter (fun x =>
            decide (x.caseCode = Cell.dateVal d) && decide (x.department = "ПСИП") &&
            decide (x.document = "Исполнительный лист")) docs := by
          rw [hfilter]
          exact List.mem_cons_self doc rest
        have hd := hdocs doc (List.mem_of_mem_filter h1)
        simp only [hde, hfilter]
        simpa using hd
    · simp [hde]
  | textVal s =>
    simp only [catch_no_data, hcc]
    cases hde : docs.isEmpty
    · cases hfilter : docs.filter (fun x =>
          decide (x.caseCode = Cell.textVal s) && decide (x.department = "ПСИП") &&
          decide (x.document = "Исполнительный лист")) with
      | nil => simp [hde, hfilter]
      | cons doc rest =>
        have h1 : doc ∈ List.filter (fun x =>
            decide (x.caseCode = Cell.textVal s) && decide (x.department = "ПСИП") &&
            decide (x.document = "Исполнительный лист")) docs := by
          rw [hfilter]
          exact List.mem_cons_self doc rest
        have hd := hdocs doc (List.mem_of_mem_filter h1)
        simp only [hde, hfilter]
        simpa using hd
    · simp [hde]

lemma split_join_single_length (s : String)
    (h : s = "timely" ∨ s = "overdue" ∨ s = "no_data" ∨ s = "upcoming_deadline"
       ∨ s = "reopened" ∨ s = "complaint_filed" ∨ s = "error_dublicate"
       ∨ s = "withdraw_by_the_initiator") :
    (split_on_semicolon (combine_results [s])).length = 1 := by
  rcases h with rfl | rfl | rfl | rfl | rfl | rfl | rfl | rfl <;> decide

lemma split_join_three_length (s1 s2 s3 : String)
    (h1 : s1 = "timely" ∨ s1 = "overdue" ∨ s1 = "no_data")
    (h2 : s2 = "timely" ∨ s2 = "overdue" ∨ s2 = "no_data")
    (h3 : s3 = "timely" ∨ s3 = "overdue" ∨ s3 = "no_data") :
    (split_on_semicolon (combine_results [s1, s2, s3])).length = 3 := by
  rcases h1 with rfl | rfl | rfl <;> rcases h2 with rfl | rfl | rfl <;>
    rcases h3 with rfl | rfl | rfl <;> decide

lemma split_completion_one_length (b : Bool) :
    (split_on_semicolon (combine_completion_statuses [b])).length = 1 := by
  cases b <;> decide

lemma split_completion_three_length (b1 b2 b3 : Bool) :
    (split_on_semicolon (combine_completion_statuses [b1, b2, b3])).length = 3 := by
  cases b1 <;> cases b2 <;> cases b3 <;> decide

lemma calculate_row_status_lawsuit_at_exceptions (docs : List ProcDoc) (cal : Calendar)
    (today : Int) (row : CaseRow) :
    calculate_row_status_lawsuit docs cal today row "exceptions" = check_lawsuit_exceptions_stage row today := rfl

lemma calculate_row_status_lawsuit_at_underConsideration (docs : List ProcDoc) (cal : Calendar)
    (today : Int) (row : CaseRow) :
    calculate_row_status_lawsuit docs cal today row "underConsideration" = check_lawsuit_under_consideration_stage row today cal := rfl

lemma calculate_row_status_lawsuit_at_decisionMade (docs : List ProcDoc) (cal : Calendar)
    (today : Int) (row : CaseRow) :
    calculate_row_status_lawsuit docs cal today row "decisionMade" = check_lawsuit_decision_made_stage row today := rfl

lemma calculate_row_status_lawsuit_at_courtReaction (docs : List ProcDoc) (cal : Calendar)
    (today : Int) (row : CaseRow) :
    calculate_row_status_lawsuit docs cal today row "courtReaction" = check_lawsuit_court_reaction_stage row today cal := rfl

lemma calculate_row_status_lawsuit_at_firstStatusChanged (docs : List ProcDoc) (cal : Calendar)
    (today : Int) (row : CaseRow) :
    calculate_row_status_lawsuit docs cal today row "firstStatusChanged" = check_lawsuit_first_status_changed_stage row today := rfl

lemma calculate_row_status_lawsuit_at_closed (docs : List ProcDoc) (cal : Calendar)
    (today : Int) (row : CaseRow) :
    calculate_row_status_lawsuit docs cal today row "closed" = check_lawsuit_closed_stage row today := rfl

lemma calculate_row_status_lawsuit_at_executionDocumentReceived (docs : List ProcDoc) (cal : Calendar)
    (today : Int) (row : CaseRow) :
    calculate_row_status_lawsuit docs cal today row "executionDocumentReceived" = check_lawsuit_execution_document_received_stage row docs := rfl

lemma calculate_row_status_order_at_exceptions (docs : List ProcDoc)
    (today : Int) (row : CaseRow) :
    calculate_row_status_order docs today row "exceptions" = check_order_exceptions_stage row today := rfl

lemma calculate_row_status_order_at_closed (docs : List ProcDoc)
    (today : Int) (row : CaseRow) :
    calculate_row_status_order docs today row "closed" = check_order_closed_stage row today := rfl

lemma calculate_row_status_order_at_executionDocumentReceived (docs : List ProcDoc)
    (today : Int) (row : CaseRow) :
    calculate_row_status_order docs today row "executionDocumentReceived" = check_order_execution_document_received_stage row docs := rfl

lemma calculate_row_status_order_at_courtReaction (docs : List ProcDoc)
    (today : Int) (row : CaseRow) :
    calculate_row_status_order docs today row "courtReaction" = check_order_court_reaction_stage row today := rfl

lemma calculate_row_status_order_at_firstStatusChanged (docs : List ProcDoc)
    (today : Int) (row : CaseRow) :
    calculate_row_status_order docs today row "firstStatusChanged" = check_order_first_status_changed_stage row today := rfl

/-- C7: for every stage present in the per-production-type checks mapping, the
composite monitoring and completion strings split on `;` into lists whose
common length is the number of checks configured for that stage (the processed
documents table is assumed to carry only the four document statuses, which is
what the document pipeline produces). -/
theorem C7_composite_length_invariant (docs : List ProcDoc) (cal : Calendar) (today : Int)
    (row : CaseRow) (stage : String)
    (hdocs : ∀ d ∈ docs, d.monitoringStatus = "timely" ∨ d.monitoringStatus = "overdue"
       ∨ d.monitoringStatus = "no_data" ∨ d.monitoringStatus = "upcoming_deadline") :
    (∀ checks, lookup_str LAWSUIT_CHECKS_MAPPING stage = some checks →
        (split_on_semicolon (calculate_row_status_lawsuit docs cal today row stage).1).length
            = checks.length
        ∧ (split_on_semicolon (calculate_row_status_lawsuit docs cal today row stage).2).length
            = checks.length)
    ∧ (∀ checks, lookup_str ORDER_CHECKS_MAPPING stage = some checks →
        (split_on_semicolon (calculate_row_status_order docs today row stage).1).length
            = checks.length
        ∧ (split_on_semicolon (calculate_row_status_order docs today row stage).2).length
            = checks.length) := by
  constructor
  · intro checks hc
    simp only [lookup_str, LAWSUIT_CHECKS_MAPPING] at hc
    split_ifs at hc with h1 h2 h3 h4 h5 h6 h7
    · cases hc
      subst h1
      rw [calculate_row_status_lawsuit_at_exceptions]
      simp only [check_lawsuit_exceptions_stage]
      refine ⟨split_join_single_length _ ?_, split_completion_one_length _⟩
      have h := evaluate_exceptions_row_cases row
      tauto
    · cases hc
      subst h2
      rw [calculate_row_status_lawsuit_at_underConsideration]
      simp only [check_lawsuit_under_consideration_stage]
      exact ⟨split_join_three_length _ _ _
          (evaluate_next_hearing_present_row_status_cases row today cal)
          (evaluate_prev_to_next_hearing_row_status_cases row cal today)
          (evaluate_under_consideration_60days_row_status_cases row today),
        split_completion_three_length _ _ _⟩
    · cases hc
      subst h3
      rw [calculate_row_status_lawsuit_at_decisionMade]
      simp only [check_lawsuit_decision_made_stage]
      exact ⟨split_join_three_length _ _ _
          (evaluate_decision_date_row_status_cases row today)
          (evaluate_decision_receipt_row_status_cases row today)
          (evaluate_decision_transfer_row_status_cases row today),
        split_completion_three_length _ _ _⟩
    · cases hc
      subst h4
      rw [calculate_row_status_lawsuit_at_courtReaction]
      simp only [check_lawsuit_court_reaction_stage]
      refine ⟨split_join_single_length _ ?_, split_completion_one_length _⟩
      have h := evaluate_court_reaction_row_status_cases row today cal
      tauto
    · cases hc
      subst h5
      rw [calculate_row_status_lawsuit_at_firstStatusChanged]
      simp only [check_lawsuit_first_status_changed_stage]
      refine ⟨split_join_single_length _ ?_, split_completion_one_length _⟩
      have h := evaluate_first_status_changed_row_status_cases row today
      tauto
    · cases hc
      subst h6
      rw [calculate_row_status_lawsuit_at_closed]
      simp only [check_lawsuit_closed_stage]
      refine ⟨split_join_single_length _ ?_, split_completion_one_length _⟩
      have h := evaluate_closed_row_status_cases row today
      tauto
    · cases hc
      subst h7
      rw [calculate_row_status_lawsuit_at_executionDocumentReceived]
      simp only [check_lawsuit_execution_document_received_stage]
      refine ⟨split_join_single_length _ ?_, split_completion_one_length _⟩
      have h := evaluate_execution_document_received_row_status_cases row docs hdocs
      tauto
  · intro checks hc
    simp only [lookup_str, ORDER_CHECKS_MAPPING] at hc
    split_ifs at hc with h1 h2 h3 h4 h5
    · cases hc
      subst h1
      rw [calculate_row_status_order_at_exceptions]
      simp only [check_order_exceptions_stage]
      refine ⟨split_join_single_length _ ?_, split_completion_one_length _⟩
      have h := evaluate_exceptions_row_cases row
      tauto
    · cases hc
      subst h2
      rw [calculate_row_status_order_at_closed]
      simp only [check_order_closed_stage]
      refine ⟨split_join_single_length _ ?_, split_completion_one_length _⟩
      have h := evaluate_order_closed_row_status_cases row today
      tauto
    · cases hc
      subst h3
      rw [calculate_row_status_order_at_executionDocumentReceived]
      simp only [check_order_execution_document_received_stage]
      refine ⟨split_join_single_length _ ?_, split_completion_one_length _⟩
      have h := evaluate_execution_document_received_row_status_cases row docs hdocs
      tauto
    · cases hc
      subst h4
      rw [calculate_row_status_order_at_courtReaction]
      simp only [check_order_court_reaction_stage]
      refine ⟨split_join_single_length _ ?_, split_completion_one_length _⟩
      have h := evaluate_order_court_reaction_row_status_cases row today
      tauto
    · cases hc
      subst h5
      rw [calculate_row_status_order_at_firstStatusChanged]
      simp only [check_order_first_status_changed_stage]
      refine ⟨split_join_single_length _ ?_, split_completion_one_length _⟩
      have h := evaluate_order_first_status_row_status_cases row today
      tauto

/-- Witness for C7: the three-check `underConsideration` stage on an empty
row, empty documents table and the trivial calendar. -/
theorem C7_composite_length_invariant_witness :
    (split_on_semicolon
        (calculate_row_status_lawsuit [] allDaysCalendar 0 {} "underConsideration").1).length = 3
    ∧ (split_on_semicolon
        (calculate_row_status_lawsuit [] allDaysCalendar 0 {} "underConsideration").2).length
        = 3 :=
  (C7_composite_length_invariant [] allDaysCalendar 0 {} "underConsideration"
      (by simp)).1
    ["nextHearing3days", "hearingInterval2days", "consideration60days"] rfl

lemma analyze_lawsuit_tasks_from_length (mappings : List (String × List TaskConfig))
    (display_names : List (String × String)) (created : String) (rows : List TaskRow) :
    ∀ counter, (analyze_lawsuit_tasks_from mappings display_names created rows counter).length
      = (rows.filter (fun row =>
          match lookup_str mappings row.caseStage with
          | some stage_tasks => !(get_failed_checks_for_stage row stage_tasks).isEmpty
          | none => false)).length := by
  induction rows with
  | nil => intro counter; rfl
  | cons row rest ih =>
    intro counter
    simp only [analyze_lawsuit_tasks_from]
    cases hl : lookup_str mappings row.caseStage with
    | none => simp [List.filter_cons, hl, ih]
    | some stage_tasks =>
      cases hf : (get_failed_checks_for_stage row stage_tasks).isEmpty with
      | true => simp [List.filter_cons, hl, hf, ih]
      | false => simp [List.filter_cons, hl, hf, ih]

/-- C1 counterexample: the spec's own task-count scenario refutes
one-Task-per-fired-spec.  With a 3-entry mapping whose index-0 and index-2
triggers both fire on composite status `"overdue;timely;no_data"` /
`"false;false;false"`, the analyzer emits a single task carrying only the
first fired spec's `failedCheck`, although the fired specs are exactly
`checkA` and `checkC`. -/
theorem C1_one_task_per_fired_spec_counterexample :
    ((analyze_lawsuit_tasks
        [("underConsideration",
          [{ failed_check_name := "checkA", index := some 0,
             conditions := some ["false", "overdue"] },
           { failed_check_name := "checkB", index := some 1,
             conditions := some ["false", "overdue"] },
           { failed_check_name := "checkC", index := some 2,
             conditions := some ["false", "no_data"] }])]
        [] "01.01.2024"
        [{ caseStage := "underConsideration",
           monitoringStatus := "overdue;timely;no_data",
           completionStatus := "false;false;false" }]).map (fun t => t.failedCheck))
      = ["checkA"]
    ∧ ((get_failed_checks_for_stage
          { caseStage := "underConsideration",
            monitoringStatus := "overdue;timely;no_data",
            completionStatus := "false;false;false" }
          [{ failed_check_name := "checkA", index := some 0,
             conditions := some ["false", "overdue"] },
           { failed_check_name := "checkB", index := some 1,
             conditions := some ["false", "overdue"] },
           { failed_check_name := "checkC", index := some 2,
             conditions := some ["false", "no_data"] }]).map
          (fun c => c.failed_check_name))
      = ["checkA", "checkC"] := by
  refine ⟨?_, ?_⟩ <;> decide

/-- C1 as amended: exactly the matching TaskSpecs fire, but a case contributes
at most one Task per stage: none when no spec fires, and exactly one — built
from the first fired spec and carrying only that spec's display name — when one
or more fire; over a whole table the number of tasks equals the number of rows
with at least one fired spec. -/
theorem C1_amended_single_task_per_case (mappings : List (String × List TaskConfig))
    (display_names : List (String × String)) (created : String) (rows : List TaskRow)
    (row : TaskRow) (stage_tasks : List TaskConfig)
    (hmap : lookup_str mappings row.caseStage = some stage_tasks) :
    (analyze_lawsuit_tasks mappings display_names created rows).length
      = (rows.filter (fun r =>
          match lookup_str mappings r.caseStage with
          | some ts => !(get_failed_checks_for_stage r ts).isEmpty
          | none => false)).length
    ∧ (analyze_lawsuit_tasks mappings display_names created [row]
        = if (get_failed_checks_for_stage row stage_tasks).isEmpty then []
          else [format_lawsuit_task display_names created (generate_task_code 1) row
                  (get_failed_checks_for_stage row stage_tasks) row.caseStage])
    ∧ ((analyze_lawsuit_tasks mappings display_names created [row]).map
          (fun t => t.failedCheck)
        = if (get_failed_checks_for_stage row stage_tasks).isEmpty then []
          else [get_failed_check_display_name display_names
                  ((get_failed_checks_for_stage row stage_tasks).headD {}).failed_check_name]) := by
  refine ⟨analyze_lawsuit_tasks_from_length mappings display_names created rows 1, ?_, ?_⟩ <;>
    cases hf : (get_failed_checks_for_stage row stage_tasks).isEmpty <;>
    simp [analyze_lawsuit_tasks, analyze_lawsuit_tasks_from, hmap, hf,
      format_lawsuit_task]

/-- Witness for C1's amended theorem on the counterexample scenario: one fired
spec set of two, one produced task named after the first. -/
theorem C1_amended_single_task_per_case_witness :
    (analyze_lawsuit_tasks
        [("underConsideration",
          [{ failed_check_name := "checkA", index := some 0,
             conditions := some ["false", "overdue"] },
           { failed_check_name := "checkC", index := some 2,
             conditions := some ["false", "no_data"] }])]
        [] "01.01.2024"
        [{ caseStage := "underConsideration",
           monitoringStatus := "overdue;timely;no_data",
           completionStatus := "false;false;false" }]).length = 1 := by
  have h := (C1_amended_single_task_per_case
      [("underConsideration",
        [{ failed_check_name := "checkA", index := some 0,
           conditions := some ["false", "overdue"] },
         { failed_check_name := "checkC", index := some 2,
           conditions := some ["false", "no_data"] }])]
      [] "01.01.2024"
      [{ caseStage := "underConsideration",
         monitoringStatus := "overdue;timely;no_data",
         completionStatus := "false;false;false" }]
      { caseStage := "underConsideration",
        monitoringStatus := "overdue;timely;no_data",
        completionStatus := "false;false;false" }
      [{ failed_check_name := "checkA", index := some 0,
         conditions := some ["false", "overdue"] },
       { failed_check_name := "checkC", index := some 2,
         conditions := some ["false", "no_data"] }] rfl).1
  rw [h]
  decide

lemma docs_dates_spec (f : DocRow → Cell) (l : List DocRow) (dated : List (Int × DocRow))
    (h : docs_dates f l = .ok dated) :
    dated.map Prod.snd = l ∧ ∀ p ∈ dated, f p.2 = .dateVal p.1 := by
  induction l generalizing dated with
  | nil =>
    simp only [docs_dates] at h
    cases h
    simp
  | cons r rest ih =>
    simp only [docs_dates] at h
    cases hr : f r with
    | missing => rw [hr] at h; exact absurd h (by simp)
    | textVal s => rw [hr] at h; exact absurd h (by simp)
    | dateVal d =>
      rw [hr] at h
      cases ht : docs_dates f rest with
      | error e => rw [ht] at h; exact absurd h (by simp)
      | ok tail =>
        rw [ht] at h
        cases h
        obtain ⟨ih1, ih2⟩ := ih tail ht
        refine ⟨by simp [ih1], ?_⟩
        intro p hp
        rcases List.mem_cons.mp hp with hp | hp
        · subst hp; exact hr
        · exact ih2 p hp

lemma idxmax_eq_none (l : List (Int × DocRow)) (h : idxmax l = none) : l = [] := by
  cases l with
  | nil => rfl
  | cons a rest =>
    simp only [idxmax] at h
    cases ht : idxmax rest with
    | none => rw [ht] at h; simp at h
    | some m =>
      rw [ht] at h
      dsimp only at h
      split at h <;> simp_all

lemma idxmax_mem (l : List (Int × DocRow)) (q : Int × DocRow) (h : idxmax l = some q) :
    q ∈ l := by
  induction l generalizing q with
  | nil => exact absurd h (by simp [idxmax])
  | cons p rest ih =>
    simp only [idxmax] at h
    cases ht : idxmax rest with
    | none =>
      rw [ht] at h
      dsimp only at h
      cases h
      exact List.mem_cons_self p rest
    | some m =>
      rw [ht] at h
      dsimp only at h
      by_cases hc : m.1 > p.1
      · rw [if_pos hc] at h
        cases h
        exact List.mem_cons_of_mem p (ih q ht)
      · rw [if_neg hc] at h
        cases h
        exact List.mem_cons_self p rest

lemma idxmax_max (l : List (Int × DocRow)) (q : Int × DocRow) (h : idxmax l = some q) :
    ∀ p ∈ l, p.1 ≤ q.1 := by
  induction l generalizing q with
  | nil => simp
  | cons a rest ih =>
    simp only [idxmax] at h
    intro p hp
    cases ht : idxmax rest with
    | none =>
      rw [ht] at h
      dsimp only at h
      cases h
      have hrest : rest = [] := idxmax_eq_none rest ht
      subst hrest
      rcases List.mem_cons.mp hp with hp | hp
      · subst hp; exact le_refl _
      · simp at hp
    | some m =>
      rw [ht] at h
      dsimp only at h
      by_cases hc : m.1 > a.1
      · rw [if_pos hc] at h
        cases h
        rcases List.mem_cons.mp hp with hp | hp
        · subst hp; exact le_of_lt hc
        · exact ih q ht p hp
      · rw [if_neg hc] at h
        cases h
        rcases List.mem_cons.mp hp with hp | hp
        · subst hp; exact le_refl _
        · exact le_trans (ih m ht p hp) (not_lt.mp hc)

/-- C2 counterexample: a group received on day 0 with no transfer, judged on
day 2 by the every-day-working calendar.  The deadline is day 2, the working
days from receipt to today are exactly 2 (not more), so the claim classifies
the group `upcoming_deadline` (today is within 14 days of the deadline), but
the source yields `overdue` because `today < deadline_date` fails when today
equals the deadline. -/
theorem C2_documents_term_status_counterexample :
    calculate_documents_group_status allDaysCalendar 2 [{ receiptDate := .dateVal 0 }]
        = "overdue"
    ∧ claimed_documents_group_status allDaysCalendar 2 [{ receiptDate := .dateVal 0 }]
        = "upcoming_deadline" := by
  refine ⟨?_, ?_⟩ <;> decide

/-- C2 as amended: with a transfer present, the group is timely exactly when
the latest-transferred record's receipt-to-transfer working days are at most 2;
with no transfer, the group is overdue when the receipt-to-today working days
exceed 2 **or when today is on or after the deadline (receipt + 2 working
days)**; strictly before the deadline it is `upcoming_deadline` when within 14
calendar days of the deadline and `timely` otherwise.  The record judged is the
one selected by `idxmax` (first maximal transfer date, else first maximal
receipt date). -/
theorem C2_amended_documents_term_status (cal : Calendar) (today : Int) (group : List DocRow) :
    (∀ dated latest receipt,
        docs_dates (fun r => r.transferDate) (group.filter (fun r => r.transferDate.notna))
            = .ok dated →
        idxmax dated = some latest →
        latest.2.receiptDate = .dateVal receipt →
        latest.2 ∈ group ∧ (∀ p ∈ dated, p.1 ≤ latest.1)
          ∧ calculate_documents_group_status cal today group
              = (if cal.get_working_days_between receipt latest.1 ≤ 2 then "timely"
                 else "overdue"))
    ∧ (∀ dated latest,
        (group.filter (fun r => r.transferDate.notna)) = [] →
        docs_dates (fun r => r.receiptDate) (group.filter (fun r => !r.transferDate.notna))
            = .ok dated →
        idxmax dated = some latest →
        latest.2 ∈ group ∧ (∀ p ∈ dated, p.1 ≤ latest.1)
          ∧ calculate_documents_group_status cal today group
              = (if 2 < cal.get_working_days_between latest.1 today
                    ∨ ¬ today < cal.add_working_days latest.1 2 then "overdue"
                 else if cal.add_working_days latest.1 2 - today ≤ 14 then "upcoming_deadline"
                 else "timely")) := by
  constructor
  · intro dated latest receipt hdd him hrec
    obtain ⟨hmap, hdates⟩ := docs_dates_spec _ _ _ hdd
    have hlat : latest ∈ dated := idxmax_mem dated latest him
    have hlat2 : latest.2 ∈ group.filter (fun r => r.transferDate.notna) := by
      rw [← hmap]
      exact List.mem_map_of_mem Prod.snd hlat
    have htr : latest.2.transferDate = .dateVal latest.1 := hdates latest hlat
    have hne : (group.filter (fun r => r.transferDate.notna)).isEmpty = false := by
      cases hfe : group.filter (fun r => r.transferDate.notna) with
      | nil => rw [hfe] at hlat2; exact absurd hlat2 (List.not_mem_nil _)
      | cons a l => rfl
    refine ⟨List.mem_of_mem_filter hlat2, idxmax_max dated latest him, ?_⟩
    simp only [calculate_documents_group_status, hne, Bool.not_false, if_true, hdd, him,
      hrec, htr, to_datetime]
  · intro dated latest hwt hdd him
    obtain ⟨hmap, hdates⟩ := docs_dates_spec _ _ _ hdd
    have hlat : latest ∈ dated := idxmax_mem dated latest him
    have hlat2 : latest.2 ∈ group.filter (fun r => !r.transferDate.notna) := by
      rw [← hmap]
      exact List.mem_map_of_mem Prod.snd hlat
    have hrec : latest.2.receiptDate = .dateVal latest.1 := hdates latest hlat
    have hne : (group.filter (fun r => !r.transferDate.notna)).isEmpty = false := by
      cases hfe : group.filter (fun r => !r.transferDate.notna) with
      | nil => rw [hfe] at hlat2; exact absurd hlat2 (List.not_mem_nil _)
      | cons a l => rfl
    refine ⟨List.mem_of_mem_filter hlat2, idxmax_max dated latest him, ?_⟩
    simp only [calculate_documents_group_status, hwt, List.isEmpty_nil, Bool.not_true,
      if_false, hne, Bool.not_false, if_true, hdd, him, hrec, to_datetime]
    split_ifs <;> first | rfl | tauto | omega

/-- Witness for C2's amended theorem: the counterexample group, evaluated to
`overdue` through the amended formula. -/
theorem C2_amended_documents_term_status_witness :
    calculate_documents_group_status allDaysCalendar 2 [{ receiptDate := .dateVal 0 }]
      = "overdue" := by
  have h := ((C2_amended_documents_term_status allDaysCalendar 2
      [{ receiptDate := .dateVal 0 }]).2
    [(0, { receiptDate := .dateVal 0 })] (0, { receiptDate := .dateVal 0 })
    rfl rfl rfl).2.2
  rw [h]
  decide

/-- C8: when both the previous-hearing and the next-hearing dates are absent,
the hearing-interval check returns `overdue` (not `no_data`) with
`completed = false`. -/
theorem C8_hearing_interval_both_missing (row : CaseRow) (cal : Calendar) (today : Int)
    (h1 : row.previousHearingDate = .missing) (h2 : row.nextHearingDate = .missing) :
    evaluate_prev_to_next_hearing_row row cal today = ("overdue", false) := by
  simp [evaluate_prev_to_next_hearing_row, evaluate_prev_to_next_hearing_row_body,
    catch_no_data, h1, h2]

/-- Witness for C8 on the all-missing row and the trivial calendar. -/
theorem C8_hearing_interval_both_missing_witness :
    ({} : CaseRow).previousHearingDate = .missing
    ∧ evaluate_prev_to_next_hearing_row {} allDaysCalendar 0 = ("overdue", false) :=
  ⟨rfl, C8_hearing_interval_both_missing {} allDaysCalendar 0 rfl rfl⟩

/-- C9: with a request date `d`, the document check is `timely` whenever
`today ≤ d + 14` regardless of confirmation; after the deadline it is `timely`
exactly when `responseEssence` is the confirmation sentinel, else `overdue`;
and a missing request date yields `no_data`. -/
theorem C9_document_row_deadline (row : DocRow) (today d : Int)
    (hreq : row.requestDate = .dateVal d) :
    (today ≤ d + 14 → evaluate_document_row row today = "timely")
    ∧ (today > d + 14 →
        evaluate_document_row row today =
          (if row.responseEssence = .textVal "Передача подтверждена" then "timely"
           else "overdue"))
    ∧ (∀ r2 : DocRow, r2.requestDate = .missing → evaluate_document_row r2 today = "no_data") := by
  refine ⟨fun h => ?_, fun h => ?_, fun r2 h2 => ?_⟩ <;>
    simp_all [evaluate_document_row, evaluate_document_row_body, to_datetime] <;>
    first
      | omega
      | (rw [if_neg (by omega)])

/-- Witness for C9: request day 0, confirmed essence, probed on both sides of
the deadline. -/
theorem C9_document_row_deadline_witness :
    evaluate_document_row { requestDate := .dateVal 0 } 14 = "timely"
    ∧ evaluate_document_row
        { requestDate := .dateVal 0, responseEssence := .textVal "Передача подтверждена" } 15
        = "timely"
    ∧ evaluate_document_row { requestDate := .dateVal 0 } 15 = "overdue"
    ∧ evaluate_document_row {} 15 = "no_data" := by
  refine ⟨(C9_document_row_deadline { requestDate := .dateVal 0 } 14 0 rfl).1 (by decide),
    ?_, ?_, (C9_document_row_deadline { requestDate := .dateVal 0 } 14 0 rfl).2.2 {} rfl⟩
  · have h := (C9_document_row_deadline
      { requestDate := .dateVal 0, responseEssence := .textVal "Передача подтверждена" }
      15 0 rfl).2.1 (by decide)
    simpa using h
  · have h := (C9_document_row_deadline { requestDate := .dateVal 0 } 15 0 rfl).2.1 (by decide)
    simpa using h

/-- C10: an index-based trigger whose index is at least the number of
semicolon-separated parts of the monitoring or of the completion string never
fires (the check is total and returns `false`). -/
theorem C10_trigger_index_out_of_range (row : TaskRow) (task_config : TaskConfig)
    (index : Nat) (conds : List String)
    (hidx : task_config.index = some index) (hconds : task_config.conditions = some conds)
    (h : (split_on_semicolon row.monitoringStatus).length ≤ index
       ∨ (split_on_semicolon row.completionStatus).length ≤ index) :
    check_task_conditions row task_config = false := by
  rcases h with h | h <;>
    simp [check_task_conditions, hidx, hconds, Nat.not_lt.mpr h]

/-- Witness for C10: index 5 against two-part composite strings. -/
theorem C10_trigger_index_out_of_range_witness :
    ((split_on_semicolon "overdue;timely").length ≤ 5
      ∨ (split_on_semicolon "false;false").length ≤ 5)
    ∧ check_task_conditions
        { monitoringStatus := "overdue;timely", completionStatus := "false;false" }
        { index := some 5, conditions := some ["false", "overdue"] } = false :=
  ⟨Or.inl (by decide),
   C10_trigger_index_out_of_range
     { monitoringStatus := "overdue;timely", completionStatus := "false;false" }
     { index := some 5, conditions := some ["false", "overdue"] } 5 ["false", "overdue"]
     rfl rfl (Or.inl (by decide))⟩
